import Mathlib

/-!
Verification development for the Email-Scrapper repository's classification and
entity-extraction engine.

The Python source is shallowly embedded in Lean:
* a small backtracking regular-expression interpreter (`RE`, `run`) models the
  subset of Python `re` used by the repository (literals, classes, groups,
  alternation, greedy/lazy quantifiers, word boundaries, `$`), with Python's
  leftmost/first-preference match order;
* every pattern list of `patterns_generalized.py` and of the extractors in
  `analyzer.py` is transcribed pattern-by-pattern into `RE` combinators (the
  original pattern text is kept as a comment above each entry);
* the decision procedures (`analyze_text`, `categorize_from_sender`,
  `is_commercial_domain`, the four entity extractors, and the per-email
  orchestration of `analyze_emails`) are translated statement-by-statement.

Modeling notes:
* Python `findall` on a pattern containing capture groups returns group
  tuples; the repository only ever uses those lists for display and for
  non-emptiness, so they are modeled as the list of matched substrings
  (the gating flag and the `[:5]` cap are translated exactly).
* `analyzer.py` is stored with a mojibake of the registered-trademark sign:
  the two-character sequence `¬Æ` appears literally inside its patterns and
  `replace` calls; the embedding reproduces those exact characters.
* Characters are classified with ASCII semantics (`\w` = alphanumeric or
  underscore, `\s` = ASCII whitespace), which agrees with Python on every
  string manipulated here.
-/

namespace EmailScrapper

/-! ## Character helpers -/

def apos : Char := Char.ofNat 39

def qch : Char := Char.ofNat 34

def bsl : Char := Char.ofNat 92

def nl : Char := Char.ofNat 10

def tab : Char := Char.ofNat 9

def isWordChar (c : Char) : Bool := c.isAlphanum || c == '_'

def isSpaceChar (c : Char) : Bool :=
  c == ' ' || c == tab || c == nl || c == '\x0d' || c == '\x0b' || c == '\x0c'

/-! ## Python string operations -/

/-- The first list is a leading segment of the second. -/
def startsWithChars : List Char → List Char → Bool
  | [], _ => true
  | _ :: _, [] => false
  | n :: ns, h :: hs => n == h && startsWithChars ns hs

def hasSubChars (needle : List Char) : List Char → Bool
  | [] => startsWithChars needle []
  | c :: cs => startsWithChars needle (c :: cs) || hasSubChars needle cs

/-- Python `needle in hay` for strings. -/
def pyIn (needle hay : String) : Bool := hasSubChars needle.toList hay.toList

/-- Python `hay.endswith (suffix)`. -/
def pyEndsWith (hay suffix : String) : Bool :=
  startsWithChars suffix.toList.reverse hay.toList.reverse

/-- Python `s.split (sep)` for a one-character separator (keeps empty parts). -/
def splitCharAux (sep : Char) : List Char → List Char → List String
  | acc, [] => [String.mk acc.reverse]
  | acc, c :: cs =>
    if c == sep then String.mk acc.reverse :: splitCharAux sep [] cs
    else splitCharAux sep (c :: acc) cs

def pySplit (sep : Char) (s : String) : List String := splitCharAux sep [] s.toList

/-- Python `s.strip ()` (ASCII whitespace). -/
def pyStrip (s : String) : String :=
  String.mk (((s.toList.dropWhile isSpaceChar).reverse.dropWhile isSpaceChar).reverse)

/-- Python `s.strip (chars)` for an explicit character set. -/
def pyStripChars (chars : List Char) (s : String) : String :=
  String.mk (((s.toList.dropWhile (chars.contains ·)).reverse.dropWhile (chars.contains ·)).reverse)

/-- Python `s.split ()` with no argument (whitespace runs, drops empties). -/
def pySplitWsAux : List Char → List Char → List String
  | acc, [] => if acc.isEmpty then [] else [String.mk acc.reverse]
  | acc, c :: cs =>
    if isSpaceChar c then
      if acc.isEmpty then pySplitWsAux [] cs
      else String.mk acc.reverse :: pySplitWsAux [] cs
    else pySplitWsAux (c :: acc) cs

def pySplitWs (s : String) : List String := pySplitWsAux [] s.toList

/-- Python `s.lower ()` (ASCII; all inputs handled here are ASCII-cased). -/
def pyLower (s : String) : String := String.mk (s.toList.map Char.toLower)

/-- Python `s.title ()`: letters following a non-letter are uppercased, other
letters lowercased. -/
def pyTitleAux : Bool → List Char → List Char
  | _, [] => []
  | prevAlpha, c :: cs =>
    if c.isAlpha then
      (if prevAlpha then c.toLower else c.toUpper) :: pyTitleAux true cs
    else c :: pyTitleAux false cs

def pyTitle (s : String) : String := String.mk (pyTitleAux false s.toList)

/-- Python `s.capitalize ()`. -/
def pyCapitalize (s : String) : String :=
  match s.toList with
  | [] => ""
  | c :: cs => String.mk (c.toUpper :: cs.map Char.toLower)

/-- Python `re.sub (r'\s+', ' ', s)`: collapse whitespace runs into one space. -/
def collapseWsAux : Bool → List Char → List Char
  | _, [] => []
  | prevSpace, c :: cs =>
    if isSpaceChar c then
      if prevSpace then collapseWsAux true cs else ' ' :: collapseWsAux true cs
    else c :: collapseWsAux false cs

def collapseWs (s : String) : String := String.mk (collapseWsAux false s.toList)

/-- Python `s.replace (old, new)` (all occurrences, left to right). -/
def pyReplaceAux (old new : List Char) : Nat → List Char → List Char
  | 0, s => s
  | _ + 1, [] => []
  | fuel + 1, c :: cs =>
    if startsWithChars old (c :: cs) && !old.isEmpty then
      new ++ pyReplaceAux old new fuel ((c :: cs).drop old.length)
    else c :: pyReplaceAux old new fuel cs

def pyReplace (s old new : String) : String :=
  String.mk (pyReplaceAux old.toList new.toList (s.toList.length + 1) s.toList)

/-- Python `re.sub (r'\s*¬Æ\s*', '¬Æ', s)` from `analyzer.py` (the file stores
the trademark sign as the two-character mojibake `¬Æ`). -/
def collapseRegSymAux : Nat → List Char → List Char
  | 0, s => s
  | _ + 1, [] => []
  | fuel + 1, c :: cs =>
    let dropped := (c :: cs).dropWhile isSpaceChar
    if startsWithChars ['¬', 'Æ'] dropped then
      '¬' :: 'Æ' :: collapseRegSymAux fuel ((dropped.drop 2).dropWhile isSpaceChar)
    else c :: collapseRegSymAux fuel cs

def collapseRegSym (s : String) : String :=
  String.mk (collapseRegSymAux (s.toList.length + 1) s.toList)

/-! ## Regular-expression interpreter

A backtracking matcher producing the list of all parses in Python's
preference order (alternation left-first, greedy quantifiers longest-first,
lazy quantifiers shortest-first); the head of the list is the parse Python's
`re` would choose at that position. -/

inductive RE where
  | eps
  | cls (p : Char → Bool)
  | seq (a b : RE)
  | alt (a b : RE)
  | star (greedy : Bool) (r : RE)
  | bnd
  | eos
  | eol
  | grp (n : Nat) (r : RE)

/-- A matcher state: the character before the current position (for `\b`),
the remaining input, and the captured groups (most recent first). -/
structure RSt where
  prev : Option Char
  rest : List Char
  caps : List (Nat × List Char)

def wordOpt : Option Char → Bool
  | some c => isWordChar c
  | none => false

def run : Nat → RE → RSt → List RSt
  | 0, _, _ => []
  | fuel + 1, re, st =>
    match re with
    | .eps => [st]
    | .cls p =>
      match st.rest with
      | [] => []
      | c :: s => if p c then [⟨some c, s, st.caps⟩] else []
    | .seq a b => (run fuel a st).flatMap (fun st2 => run fuel b st2)
    | .alt a b => run fuel a st ++ run fuel b st
    | .star g r =>
      let once := (run fuel r st).filter (fun st2 => st2.rest.length < st.rest.length)
      let more := once.flatMap (fun st2 => run fuel (.star g r) st2)
      if g then more ++ [st] else st :: more
    | .bnd => if wordOpt st.prev != wordOpt st.rest.head? then [st] else []
    | .eos =>
      match st.rest with
      | [] => [st]
      | [c] => if c == nl then [st] else []
      | _ => []
    | .eol =>
      match st.rest with
      | [] => [st]
      | c :: _ => if c == nl then [st] else []
    | .grp n r =>
      (run fuel r st).map (fun st2 =>
        ⟨st2.prev, st2.rest, (n, st.rest.take (st.rest.length - st2.rest.length)) :: st2.caps⟩)

/-- Fuel comfortably above the deepest backtracking path on the repository's
patterns for inputs of this length. -/
def fuelFor (s : List Char) : Nat := 600 + 200 * s.length

/-- Python `re.search`: scan positions left to right, return the first position's
preferred parse. Group 0 is the whole match. -/
def searchAux (re : RE) : Option Char → List Char → Option RSt
  | prev, [] =>
    match run (fuelFor []) (.grp 0 re) ⟨prev, [], []⟩ with
    | st :: _ => some st
    | [] => none
  | prev, c :: rest =>
    match run (fuelFor (c :: rest)) (.grp 0 re) ⟨prev, c :: rest, []⟩ with
    | st :: _ => some st
    | [] => searchAux re (some c) rest

def reSearch (re : RE) (s : String) : Option RSt := searchAux re none s.toList

def reTest (re : RE) (s : String) : Bool := (reSearch re s).isSome

/-- Python `match.group (n)` of a search result. -/
def capStr (st : RSt) (n : Nat) : Option String :=
  (st.caps.find? (fun p => p.1 == n)).map (fun p => String.mk p.2)

/-- Python `re.match`: anchored at the start of the string. -/
def reMatchStart (re : RE) (s : String) : Bool :=
  !(run (fuelFor s.toList) re ⟨none, s.toList, []⟩).isEmpty

/-- Python `re.findall` modeled as the list of matched substrings (leftmost,
non-overlapping, advancing one character after an empty match). -/
def findAllAux (re : RE) : Nat → Option Char → List Char → List String
  | 0, _, _ => []
  | fuel + 1, prev, s =>
    match run (fuelFor s) (.grp 0 re) ⟨prev, s, []⟩ with
    | st :: _ =>
      let consumed := s.length - st.rest.length
      let m : List Char := s.take consumed
      if consumed > 0 then
        String.mk m :: findAllAux re fuel m.getLast? st.rest
      else
        match s with
        | [] => [String.mk m]
        | c :: rest => String.mk m :: findAllAux re fuel (some c) rest
    | [] =>
      match s with
      | [] => []
      | c :: rest => findAllAux re fuel (some c) rest

def reFindAll (re : RE) (s : String) : List String :=
  findAllAux re (s.toList.length + 1) none s.toList

/-! ### Combinators used by the transcribed patterns -/

def rchar (c : Char) : RE := .cls (fun x => x == c)

def rchari (c : Char) : RE := .cls (fun x => x.toLower == c.toLower)

def rlit (s : String) : RE := s.toList.foldr (fun c acc => .seq (rchar c) acc) .eps

def rliti (s : String) : RE := s.toList.foldr (fun c acc => .seq (rchari c) acc) .eps

def rcat (l : List RE) : RE := l.foldr .seq .eps

def rnever : RE := .cls (fun _ => false)

def ralts : List RE → RE
  | [] => rnever
  | [r] => r
  | r :: rs => .alt r (ralts rs)

def ropt (r : RE) : RE := .alt r .eps

def roptl (r : RE) : RE := .alt .eps r

def rstar (r : RE) : RE := .star true r

def rstarl (r : RE) : RE := .star false r

def rplus (r : RE) : RE := .seq r (.star true r)

def rplusl (r : RE) : RE := .seq r (.star false r)

def rrep : Nat → RE → RE
  | 0, _ => .eps
  | n + 1, r => .seq r (rrep n r)

def roptChain : Nat → RE → RE
  | 0, _ => .eps
  | n + 1, r => .alt (.seq r (roptChain n r)) .eps

def roptChainL : Nat → RE → RE
  | 0, _ => .eps
  | n + 1, r => .alt .eps (.seq r (roptChainL n r))

def rrange (m n : Nat) (r : RE) : RE := .seq (rrep m r) (roptChain (n - m) r)

def rrangeL (m n : Nat) (r : RE) : RE := .seq (rrep m r) (roptChainL (n - m) r)

/-- A case-insensitive character class (Python `re.IGNORECASE`). -/
def clsi (q : Char → Bool) : RE := .cls (fun c => q c || q c.toLower || q c.toUpper)

def dchar : RE := .cls Char.isDigit

def wchar : RE := .cls isWordChar

def schar : RE := .cls isSpaceChar

def rany : RE := .cls (fun c => c != nl)

/-! ## patterns_generalized.py: pattern libraries (all compiled with re.IGNORECASE) -/

/-- patterns_generalized.py lines 22-94: MEMBERSHIP_PATTERNS. -/
def MEMBERSHIP_PATTERNS : List RE := [
  -- \b[\w\s\']+[\s]?(club\+|boost\+|plus\+|\+|premium|pro|rewards|insider|member|circle|perks|benefits|advantage|privileges):\s
  rcat [RE.bnd, rplus (clsi (fun c => isWordChar c || isSpaceChar c || c == apos)), ropt (clsi (fun c => isSpaceChar c)), RE.grp 1 (ralts [rliti "club+", rliti "boost+", rliti "plus+", rliti "+", rliti "premium", rliti "pro", rliti "rewards", rliti "insider", rliti "member", rliti "circle", rliti "perks", rliti "benefits", rliti "advantage", rliti "privileges"]), rliti ":", schar],
  -- \b(club\+|boost\+|rewards|insider)\s+members?\b
  rcat [RE.bnd, RE.grp 1 (ralts [rliti "club+", rliti "boost+", rliti "rewards", rliti "insider"]), rplus (schar), rliti "member", ropt (rchari 's'), RE.bnd],
  -- \b(membership|member|subscriber|account)\s+(anniversary|birthday)\b
  rcat [RE.bnd, RE.grp 1 (ralts [rliti "membership", rliti "member", rliti "subscriber", rliti "account"]), rplus (schar), RE.grp 2 (ralts [rliti "anniversary", rliti "birthday"]), RE.bnd],
  -- \b(anniversary|birthday)\b.*\b(membership|member|rewards|program|account|passport|insider|perks)\b
  rcat [RE.bnd, RE.grp 1 (ralts [rliti "anniversary", rliti "birthday"]), RE.bnd, rstar (rany), RE.bnd, RE.grp 2 (ralts [rliti "membership", rliti "member", rliti "rewards", rliti "program", rliti "account", rliti "passport", rliti "insider", rliti "perks"]), RE.bnd],
  -- \byour\s+[\w\s\+\-\'\.]+\s+anniversary\b
  rcat [RE.bnd, rliti "your", rplus (schar), rplus (clsi (fun c => isWordChar c || isSpaceChar c || c == '+' || c == '-' || c == apos || c == '.')), rplus (schar), rliti "anniversary", RE.bnd],
  -- \banniversary\b
  rcat [RE.bnd, rliti "anniversary", RE.bnd],
  -- \bhappy\s+birthday\b
  rcat [RE.bnd, rliti "happy", rplus (schar), rliti "birthday", RE.bnd],
  -- \bcelebrating\s+(your|you)\b
  rcat [RE.bnd, rliti "celebrating", rplus (schar), RE.grp 1 (ralts [rliti "your", rliti "you"]), RE.bnd],
  -- \bmembership\b
  rcat [RE.bnd, rliti "membership", RE.bnd],
  -- \bsubscription\b
  rcat [RE.bnd, rliti "subscription", RE.bnd],
  -- \bmember\s+(benefits|perks|rewards|exclusive|since|portal|access|account|card|number|id)\b
  rcat [RE.bnd, rliti "member", rplus (schar), RE.grp 1 (ralts [rliti "benefits", rliti "perks", rliti "rewards", rliti "exclusive", rliti "since", rliti "portal", rliti "access", rliti "account", rliti "card", rliti "number", rliti "id"]), RE.bnd],
  -- \byour\s+[\w\s\+\-\']+\s+(membership|subscription|member|account)\b
  rcat [RE.bnd, rliti "your", rplus (schar), rplus (clsi (fun c => isWordChar c || isSpaceChar c || c == '+' || c == '-' || c == apos)), rplus (schar), RE.grp 1 (ralts [rliti "membership", rliti "subscription", rliti "member", rliti "account"]), RE.bnd],
  -- \bwelcome\s+to\s+[\w\s\+\-\']+[!\s,]
  rcat [RE.bnd, rliti "welcome", rplus (schar), rliti "to", rplus (schar), rplus (clsi (fun c => isWordChar c || isSpaceChar c || c == '+' || c == '-' || c == apos)), clsi (fun c => c == '!' || isSpaceChar c || c == ',')],
  -- \b(membership|subscription)\s+(?:ending|expir(?:es?|ing)|renew(?:al|ing)?)\b
  rcat [RE.bnd, RE.grp 1 (ralts [rliti "membership", rliti "subscription"]), rplus (schar), (ralts [rliti "ending", rcat [rliti "expir", (ralts [rcat [rliti "e", ropt (rchari 's')], rliti "ing"])], rcat [rliti "renew", ropt ((ralts [rliti "al", rliti "ing"]))]]), RE.bnd],
  -- \b(membership|subscription)\s+(?:status|details|information|summary)\b
  rcat [RE.bnd, RE.grp 1 (ralts [rliti "membership", rliti "subscription"]), rplus (schar), (ralts [rliti "status", rliti "details", rliti "information", rliti "summary"]), RE.bnd],
  -- \b(activated|active|confirmed|enrolled|registered|started|begins?)\b.*\b(membership|subscription|member|account)\b
  rcat [RE.bnd, RE.grp 1 (ralts [rliti "activated", rliti "active", rliti "confirmed", rliti "enrolled", rliti "registered", rliti "started", rcat [rliti "begin", ropt (rchari 's')]]), RE.bnd, rstar (rany), RE.bnd, RE.grp 2 (ralts [rliti "membership", rliti "subscription", rliti "member", rliti "account"]), RE.bnd],
  -- \b(membership|subscription|member|account)\b.*\b(activated|active|confirmed|enrolled|started|is\s+now|has\s+started)\b
  rcat [RE.bnd, RE.grp 1 (ralts [rliti "membership", rliti "subscription", rliti "member", rliti "account"]), RE.bnd, rstar (rany), RE.bnd, RE.grp 2 (ralts [rliti "activated", rliti "active", rliti "confirmed", rliti "enrolled", rliti "started", rcat [rliti "is", rplus (schar), rliti "now"], rcat [rliti "has", rplus (schar), rliti "started"]]), RE.bnd],
  -- \b(warehouse|club|plus|prime)\s+(membership|member|account)\b
  rcat [RE.bnd, RE.grp 1 (ralts [rliti "warehouse", rliti "club", rliti "plus", rliti "prime"]), rplus (schar), RE.grp 2 (ralts [rliti "membership", rliti "member", rliti "account"]), RE.bnd],
  -- \b(member|membership)\s+(card|number|id|portal|dashboard)\b
  rcat [RE.bnd, RE.grp 1 (ralts [rliti "member", rliti "membership"]), rplus (schar), RE.grp 2 (ralts [rliti "card", rliti "number", rliti "id", rliti "portal", rliti "dashboard"]), RE.bnd],
  -- \b(trial|renewal|renew)\b.*\b(started|begins?|ends?|expir(es?|ing|ation)|period|notice|reminder)\b
  rcat [RE.bnd, RE.grp 1 (ralts [rliti "trial", rliti "renewal", rliti "renew"]), RE.bnd, rstar (rany), RE.bnd, RE.grp 2 (ralts [rliti "started", rcat [rliti "begin", ropt (rchari 's')], rcat [rliti "end", ropt (rchari 's')], rcat [rliti "expir", RE.grp 3 (ralts [rcat [rliti "e", ropt (rchari 's')], rliti "ing", rliti "ation"])], rliti "period", rliti "notice", rliti "reminder"]), RE.bnd],
  -- \bfree\s*(trial|membership|subscription)\b
  rcat [RE.bnd, rliti "free", rstar (schar), RE.grp 1 (ralts [rliti "trial", rliti "membership", rliti "subscription"]), RE.bnd],
  -- \bauto[-\s]?renew(al|ed|s)?\b
  rcat [RE.bnd, rliti "auto", ropt (clsi (fun c => c == '-' || isSpaceChar c)), rliti "renew", ropt (RE.grp 1 (ralts [rliti "al", rliti "ed", rliti "s"])), RE.bnd],
  -- \b(monthly|annual|yearly)\s*(plan|subscription|membership|fee|payment|billing)\b
  rcat [RE.bnd, RE.grp 1 (ralts [rliti "monthly", rliti "annual", rliti "yearly"]), rstar (schar), RE.grp 2 (ralts [rliti "plan", rliti "subscription", rliti "membership", rliti "fee", rliti "payment", rliti "billing"]), RE.bnd],
  -- \brecurring\s*(charge|payment|billing|subscription|fee)\b
  rcat [RE.bnd, rliti "recurring", rstar (schar), RE.grp 1 (ralts [rliti "charge", rliti "payment", rliti "billing", rliti "subscription", rliti "fee"]), RE.bnd],
  -- \bsubscription\s*(fee|dues|payment|invoice|billing|charge)\b
  rcat [RE.bnd, rliti "subscription", rstar (schar), RE.grp 1 (ralts [rliti "fee", rliti "dues", rliti "payment", rliti "invoice", rliti "billing", rliti "charge"]), RE.bnd],
  -- \bmembership\s*(fee|dues|payment|invoice|billing|charge)\b
  rcat [RE.bnd, rliti "membership", rstar (schar), RE.grp 1 (ralts [rliti "fee", rliti "dues", rliti "payment", rliti "invoice", rliti "billing", rliti "charge"]), RE.bnd],
  -- \b(plus|premium|pro|elite|gold|platinum|executive|star|select|preferred|priority|boost)\s+(membership|subscription|member|account|program)\b
  rcat [RE.bnd, RE.grp 1 (ralts [rliti "plus", rliti "premium", rliti "pro", rliti "elite", rliti "gold", rliti "platinum", rliti "executive", rliti "star", rliti "select", rliti "preferred", rliti "priority", rliti "boost"]), rplus (schar), RE.grp 2 (ralts [rliti "membership", rliti "subscription", rliti "member", rliti "account", rliti "program"]), RE.bnd],
  -- \b(basic|standard|advanced|essentials?)\s+(membership|subscription|member|plan|tier)\b
  rcat [RE.bnd, RE.grp 1 (ralts [rliti "basic", rliti "standard", rliti "advanced", rcat [rliti "essential", ropt (rchari 's')]]), rplus (schar), RE.grp 2 (ralts [rliti "membership", rliti "subscription", rliti "member", rliti "plan", rliti "tier"]), RE.bnd],
  -- \b[\w\']+\s*(club\+|boost\+)\b
  rcat [RE.bnd, rplus (clsi (fun c => isWordChar c || c == apos)), rstar (schar), RE.grp 1 (ralts [rliti "club+", rliti "boost+"]), RE.bnd],
  -- \b(club\+|boost\+|club\s+plus|boost\s+plus)\b
  rcat [RE.bnd, RE.grp 1 (ralts [rliti "club+", rliti "boost+", rcat [rliti "club", rplus (schar), rliti "plus"], rcat [rliti "boost", rplus (schar), rliti "plus"]]), RE.bnd],
  -- \b(unlock|unlocked|enjoy|access|get)\b.*\b(membership|subscription|member|benefits|perks|privileges)\b
  rcat [RE.bnd, RE.grp 1 (ralts [rliti "unlock", rliti "unlocked", rliti "enjoy", rliti "access", rliti "get"]), RE.bnd, rstar (rany), RE.bnd, RE.grp 2 (ralts [rliti "membership", rliti "subscription", rliti "member", rliti "benefits", rliti "perks", rliti "privileges"]), RE.bnd],
  -- \b(membership|subscription)\b.*\b(unlock|unlocked|benefits|perks|privileges|exclusive|rewards)\b
  rcat [RE.bnd, RE.grp 1 (ralts [rliti "membership", rliti "subscription"]), RE.bnd, rstar (rany), RE.bnd, RE.grp 2 (ralts [rliti "unlock", rliti "unlocked", rliti "benefits", rliti "perks", rliti "privileges", rliti "exclusive", rliti "rewards"]), RE.bnd],
  -- \bjoin(ed)?\s+(our\s+)?[\w\s\+\-\']+\s+(membership|program|club|family|community)\b
  rcat [RE.bnd, rliti "join", ropt (RE.grp 1 (rliti "ed")), rplus (schar), ropt (RE.grp 2 (rcat [rliti "our", rplus (schar)])), rplus (clsi (fun c => isWordChar c || isSpaceChar c || c == '+' || c == '-' || c == apos)), rplus (schar), RE.grp 3 (ralts [rliti "membership", rliti "program", rliti "club", rliti "family", rliti "community"]), RE.bnd],
  -- \bexclusive\s*(member|membership|subscriber)\s*(access|benefits|perks|pricing|offers?|deals?)\b
  rcat [RE.bnd, rliti "exclusive", rstar (schar), RE.grp 1 (ralts [rliti "member", rliti "membership", rliti "subscriber"]), rstar (schar), RE.grp 2 (ralts [rliti "access", rliti "benefits", rliti "perks", rliti "pricing", rcat [rliti "offer", ropt (rchari 's')], rcat [rliti "deal", ropt (rchari 's')]]), RE.bnd],
  -- \b(streaming|delivery|shipping|rewards?|loyalty|points)\s*(membership|subscription|service|program|plan)\b
  rcat [RE.bnd, RE.grp 1 (ralts [rliti "streaming", rliti "delivery", rliti "shipping", rcat [rliti "reward", ropt (rchari 's')], rliti "loyalty", rliti "points"]), rstar (schar), RE.grp 2 (ralts [rliti "membership", rliti "subscription", rliti "service", rliti "program", rliti "plan"]), RE.bnd],
  -- \b(gym|fitness|health|wellness)\s*(membership|subscription|plan)\b
  rcat [RE.bnd, RE.grp 1 (ralts [rliti "gym", rliti "fitness", rliti "health", rliti "wellness"]), rstar (schar), RE.grp 2 (ralts [rliti "membership", rliti "subscription", rliti "plan"]), RE.bnd],
  -- \b(student|family|business|corporate|individual)\s*(membership|subscription|plan)\b
  rcat [RE.bnd, RE.grp 1 (ralts [rliti "student", rliti "family", rliti "business", rliti "corporate", rliti "individual"]), rstar (schar), RE.grp 2 (ralts [rliti "membership", rliti "subscription", rliti "plan"]), RE.bnd],
  -- \bwelcome\s+(to\s+)?(our\s+)?[\w\s\+\-\']+\b
  rcat [RE.bnd, rliti "welcome", rplus (schar), ropt (RE.grp 1 (rcat [rliti "to", rplus (schar)])), ropt (RE.grp 2 (rcat [rliti "our", rplus (schar)])), rplus (clsi (fun c => isWordChar c || isSpaceChar c || c == '+' || c == '-' || c == apos)), RE.bnd],
  -- \bthank\s+you\s+for\s+(joining|subscribing|signing\s+up)\b
  rcat [RE.bnd, rliti "thank", rplus (schar), rliti "you", rplus (schar), rliti "for", rplus (schar), RE.grp 1 (ralts [rliti "joining", rliti "subscribing", rcat [rliti "signing", rplus (schar), rliti "up"]]), RE.bnd],
  -- \byou\'?re\s+(now\s+)?a\s+(member|subscriber)\b
  rcat [RE.bnd, rliti "you", ropt (rchari apos), rliti "re", rplus (schar), ropt (RE.grp 1 (rcat [rliti "now", rplus (schar)])), rliti "a", rplus (schar), RE.grp 2 (ralts [rliti "member", rliti "subscriber"]), RE.bnd],
  -- \byour\s+[\w\s\+\-\']+\s+(account|profile)\s+is\s+(ready|active|set\s+up)\b
  rcat [RE.bnd, rliti "your", rplus (schar), rplus (clsi (fun c => isWordChar c || isSpaceChar c || c == '+' || c == '-' || c == apos)), rplus (schar), RE.grp 1 (ralts [rliti "account", rliti "profile"]), rplus (schar), rliti "is", rplus (schar), RE.grp 2 (ralts [rliti "ready", rliti "active", rcat [rliti "set", rplus (schar), rliti "up"]]), RE.bnd],
  -- \bmember(ship)?\s*(number|id|#)\s*:?\s*\d+\b
  rcat [RE.bnd, rliti "member", ropt (RE.grp 1 (rliti "ship")), rstar (schar), RE.grp 2 (ralts [rliti "number", rliti "id", rliti "#"]), rstar (schar), ropt (rchari ':'), rstar (schar), rplus (dchar), RE.bnd],
  -- \baccount\s*(number|id|#)\s*:?\s*\d+\b.*\b(membership|subscription|member)\b
  rcat [RE.bnd, rliti "account", rstar (schar), RE.grp 1 (ralts [rliti "number", rliti "id", rliti "#"]), rstar (schar), ropt (rchari ':'), rstar (schar), rplus (dchar), RE.bnd, rstar (rany), RE.bnd, RE.grp 2 (ralts [rliti "membership", rliti "subscription", rliti "member"]), RE.bnd]
]

/-- patterns_generalized.py lines 100-150: OFFER_PATTERNS. -/
def OFFER_PATTERNS : List RE := [
  -- \b(credit|debit|charge|prepaid)\s*card\s*(benefits|rewards|activated|active|approved|application|member)\b
  rcat [RE.bnd, RE.grp 1 (ralts [rliti "credit", rliti "debit", rliti "charge", rliti "prepaid"]), rstar (schar), rliti "card", rstar (schar), RE.grp 2 (ralts [rliti "benefits", rliti "rewards", rliti "activated", rliti "active", rliti "approved", rliti "application", rliti "member"]), RE.bnd],
  -- \bcard\s*(benefits|rewards|activated|active|approved|application|member|perks|privilege)\b
  rcat [RE.bnd, rliti "card", rstar (schar), RE.grp 1 (ralts [rliti "benefits", rliti "rewards", rliti "activated", rliti "active", rliti "approved", rliti "application", rliti "member", rliti "perks", rliti "privilege"]), RE.bnd],
  -- \byour\s+[\w\s]+\s+card\s+(is\s+)?(now\s+)?(ready|active|activated|approved|issued)\b
  rcat [RE.bnd, rliti "your", rplus (schar), rplus (clsi (fun c => isWordChar c || isSpaceChar c)), rplus (schar), rliti "card", rplus (schar), ropt (RE.grp 1 (rcat [rliti "is", rplus (schar)])), ropt (RE.grp 2 (rcat [rliti "now", rplus (schar)])), RE.grp 3 (ralts [rliti "ready", rliti "active", rliti "activated", rliti "approved", rliti "issued"]), RE.bnd],
  -- \bwelcome[!\s]+.*\bcard\b
  rcat [RE.bnd, rliti "welcome", rplus (clsi (fun c => c == '!' || isSpaceChar c)), rstar (rany), RE.bnd, rliti "card", RE.bnd],
  -- \byour\s+[\w\s®]+\s+card\b
  rcat [RE.bnd, rliti "your", rplus (schar), rplus (clsi (fun c => isWordChar c || isSpaceChar c || c == '®')), rplus (schar), rliti "card", RE.bnd],
  -- \bcongratulations\b.*\bcard\b
  rcat [RE.bnd, rliti "congratulations", RE.bnd, rstar (rany), RE.bnd, rliti "card", RE.bnd],
  -- \bcongratulations\b.*\b(approval|approved)\b
  rcat [RE.bnd, rliti "congratulations", RE.bnd, rstar (rany), RE.bnd, RE.grp 1 (ralts [rliti "approval", rliti "approved"]), RE.bnd],
  -- \b(visa|mastercard|american\s*express|amex|discover|diners|jcb|unionpay)\s*(card|benefits|rewards|signature|infinite|world|elite)?\b
  rcat [RE.bnd, RE.grp 1 (ralts [rliti "visa", rliti "mastercard", rcat [rliti "american", rstar (schar), rliti "express"], rliti "amex", rliti "discover", rliti "diners", rliti "jcb", rliti "unionpay"]), rstar (schar), ropt (RE.grp 2 (ralts [rliti "card", rliti "benefits", rliti "rewards", rliti "signature", rliti "infinite", rliti "world", rliti "elite"])), RE.bnd],
  -- \bcard\s*member\s*(benefits|rewards|exclusive|perks|offers|privileges)\b
  rcat [RE.bnd, rliti "card", rstar (schar), rliti "member", rstar (schar), RE.grp 1 (ralts [rliti "benefits", rliti "rewards", rliti "exclusive", rliti "perks", rliti "offers", rliti "privileges"]), RE.bnd],
  -- \bcardmember\b
  rcat [RE.bnd, rliti "cardmember", RE.bnd],
  -- \bcard\s*holder\b
  rcat [RE.bnd, rliti "card", rstar (schar), rliti "holder", RE.bnd],
  -- \brewards?\s*(card|program|points|activated|active|benefits|earned|balance)\b
  rcat [RE.bnd, rliti "reward", ropt (rchari 's'), rstar (schar), RE.grp 1 (ralts [rliti "card", rliti "program", rliti "points", rliti "activated", rliti "active", rliti "benefits", rliti "earned", rliti "balance"]), RE.bnd],
  -- \bpoints\s*(earned|balance|card|rewards|program|redemption|transfer)\b
  rcat [RE.bnd, rliti "points", rstar (schar), RE.grp 1 (ralts [rliti "earned", rliti "balance", rliti "card", rliti "rewards", rliti "program", rliti "redemption", rliti "transfer"]), RE.bnd],
  -- \bcash\s*back\s*(card|rewards|earned|program)?\b
  rcat [RE.bnd, rliti "cash", rstar (schar), rliti "back", rstar (schar), ropt (RE.grp 1 (ralts [rliti "card", rliti "rewards", rliti "earned", rliti "program"])), RE.bnd],
  -- \bmiles\s*(card|rewards|earned|program|balance|transfer)\b
  rcat [RE.bnd, rliti "miles", rstar (schar), RE.grp 1 (ralts [rliti "card", rliti "rewards", rliti "earned", rliti "program", rliti "balance", rliti "transfer"]), RE.bnd],
  -- \bfrequent\s*flyer\s*(card|program|miles)\b
  rcat [RE.bnd, rliti "frequent", rstar (schar), rliti "flyer", rstar (schar), RE.grp 1 (ralts [rliti "card", rliti "program", rliti "miles"]), RE.bnd],
  -- \bairline\s*(miles|rewards|card|partner)\b
  rcat [RE.bnd, rliti "airline", rstar (schar), RE.grp 1 (ralts [rliti "miles", rliti "rewards", rliti "card", rliti "partner"]), RE.bnd],
  -- \btravel\s*(card|rewards|benefits|credits)\b
  rcat [RE.bnd, rliti "travel", rstar (schar), RE.grp 1 (ralts [rliti "card", rliti "rewards", rliti "benefits", rliti "credits"]), RE.bnd],
  -- \bwelcome\s*(bonus|offer|kit|package)\b.*\bcard\b
  rcat [RE.bnd, rliti "welcome", rstar (schar), RE.grp 1 (ralts [rliti "bonus", rliti "offer", rliti "kit", rliti "package"]), RE.bnd, rstar (rany), RE.bnd, rliti "card", RE.bnd],
  -- \bcard\s*(application|approval|activation|welcome)\b
  rcat [RE.bnd, rliti "card", rstar (schar), RE.grp 1 (ralts [rliti "application", rliti "approval", rliti "activation", rliti "welcome"]), RE.bnd],
  -- \bapproved\b.*\bcard\b
  rcat [RE.bnd, rliti "approved", RE.bnd, rstar (rany), RE.bnd, rliti "card", RE.bnd],
  -- \bactivate\s+your\s+(new\s+)?card\b
  rcat [RE.bnd, rliti "activate", rplus (schar), rliti "your", rplus (schar), ropt (RE.grp 1 (rcat [rliti "new", rplus (schar)])), rliti "card", RE.bnd],
  -- \b(platinum|gold|silver|premier|signature|infinite|world|elite|prestige|reserve)\s*(card|membership|status)\b
  rcat [RE.bnd, RE.grp 1 (ralts [rliti "platinum", rliti "gold", rliti "silver", rliti "premier", rliti "signature", rliti "infinite", rliti "world", rliti "elite", rliti "prestige", rliti "reserve"]), rstar (schar), RE.grp 2 (ralts [rliti "card", rliti "membership", rliti "status"]), RE.bnd],
  -- \b(business|corporate|commercial)\s*card\b
  rcat [RE.bnd, RE.grp 1 (ralts [rliti "business", rliti "corporate", rliti "commercial"]), rstar (schar), rliti "card", RE.bnd],
  -- \bco[-\s]?brand(ed)?\s*card\b
  rcat [RE.bnd, rliti "co", ropt (clsi (fun c => c == '-' || isSpaceChar c)), rliti "brand", ropt (RE.grp 1 (rliti "ed")), rstar (schar), rliti "card", RE.bnd],
  -- \bstore\s*card\b
  rcat [RE.bnd, rliti "store", rstar (schar), rliti "card", RE.bnd],
  -- \bcard\s+benefit(s)?\s+(are\s+)?(now\s+)?(active|activated|available|unlocked)\b
  rcat [RE.bnd, rliti "card", rplus (schar), rliti "benefit", ropt (RE.grp 1 (rliti "s")), rplus (schar), ropt (RE.grp 2 (rcat [rliti "are", rplus (schar)])), ropt (RE.grp 3 (rcat [rliti "now", rplus (schar)])), RE.grp 4 (ralts [rliti "active", rliti "activated", rliti "available", rliti "unlocked"]), RE.bnd],
  -- \binsurance\s*coverage\b.*\bcard\b
  rcat [RE.bnd, rliti "insurance", rstar (schar), rliti "coverage", RE.bnd, rstar (rany), RE.bnd, rliti "card", RE.bnd],
  -- \btravel\s*insurance\b
  rcat [RE.bnd, rliti "travel", rstar (schar), rliti "insurance", RE.bnd],
  -- \bpurchase\s*protection\b
  rcat [RE.bnd, rliti "purchase", rstar (schar), rliti "protection", RE.bnd],
  -- \bextended\s*warranty\b
  rcat [RE.bnd, rliti "extended", rstar (schar), rliti "warranty", RE.bnd],
  -- \bconcierge\s*service\b
  rcat [RE.bnd, rliti "concierge", rstar (schar), rliti "service", RE.bnd],
  -- \blounge\s*access\b
  rcat [RE.bnd, rliti "lounge", rstar (schar), rliti "access", RE.bnd],
  -- \bpriority\s*(pass|boarding|access)\b
  rcat [RE.bnd, rliti "priority", rstar (schar), RE.grp 1 (ralts [rliti "pass", rliti "boarding", rliti "access"]), RE.bnd]
]

/-- patterns_generalized.py lines 156-267: COUPON_PATTERNS. -/
def COUPON_PATTERNS : List RE := [
  -- \b\d+%\s*off\b
  rcat [RE.bnd, rplus (dchar), rliti "%", rstar (schar), rliti "off", RE.bnd],
  -- \bup\s*to\s*\d+%\s*off\b
  rcat [RE.bnd, rliti "up", rstar (schar), rliti "to", rstar (schar), rplus (dchar), rliti "%", rstar (schar), rliti "off", RE.bnd],
  -- \bflat\s*\d+%?\s*(off|discount)\b
  rcat [RE.bnd, rliti "flat", rstar (schar), rplus (dchar), ropt (rchari '%'), rstar (schar), RE.grp 1 (ralts [rliti "off", rliti "discount"]), RE.bnd],
  -- \bextra\s*\d+%\s*off\b
  rcat [RE.bnd, rliti "extra", rstar (schar), rplus (dchar), rliti "%", rstar (schar), rliti "off", RE.bnd],
  -- \badditional\s*\d+%\s*off\b
  rcat [RE.bnd, rliti "additional", rstar (schar), rplus (dchar), rliti "%", rstar (schar), rliti "off", RE.bnd],
  -- \bsave\s*(up\s*to\s*)?\$?\₹?€?£?¥?\d+
  rcat [RE.bnd, rliti "save", rstar (schar), ropt (RE.grp 1 (rcat [rliti "up", rstar (schar), rliti "to", rstar (schar)])), ropt (rchari '$'), ropt (rchari '₹'), ropt (rchari '€'), ropt (rchari '£'), ropt (rchari '¥'), rplus (dchar)],
  -- \bget\s*\$?\₹?€?£?¥?\d+\s*off\b
  rcat [RE.bnd, rliti "get", rstar (schar), ropt (rchari '$'), ropt (rchari '₹'), ropt (rchari '€'), ropt (rchari '£'), ropt (rchari '¥'), rplus (dchar), rstar (schar), rliti "off", RE.bnd],
  -- \b\$?\₹?€?£?¥?\d+\s*off\b
  rcat [RE.bnd, ropt (rchari '$'), ropt (rchari '₹'), ropt (rchari '€'), ropt (rchari '£'), ropt (rchari '¥'), rplus (dchar), rstar (schar), rliti "off", RE.bnd],
  -- \b\$?\₹?€?£?¥?\d+\s*(discount|savings|rebate)\b
  rcat [RE.bnd, ropt (rchari '$'), ropt (rchari '₹'), ropt (rchari '€'), ropt (rchari '£'), ropt (rchari '¥'), rplus (dchar), rstar (schar), RE.grp 1 (ralts [rliti "discount", rliti "savings", rliti "rebate"]), RE.bnd],
  -- \bpromo\s*(code|offer)\b
  rcat [RE.bnd, rliti "promo", rstar (schar), RE.grp 1 (ralts [rliti "code", rliti "offer"]), RE.bnd],
  -- \bcoupon\s*code\b
  rcat [RE.bnd, rliti "coupon", rstar (schar), rliti "code", RE.bnd],
  -- \bdiscount\s*code\b
  rcat [RE.bnd, rliti "discount", rstar (schar), rliti "code", RE.bnd],
  -- \buse\s*code\b
  rcat [RE.bnd, rliti "use", rstar (schar), rliti "code", RE.bnd],
  -- \bapply\s*code\b
  rcat [RE.bnd, rliti "apply", rstar (schar), rliti "code", RE.bnd],
  -- \benter\s*code\b
  rcat [RE.bnd, rliti "enter", rstar (schar), rliti "code", RE.bnd],
  -- \bcode\s*:\s*[\w\d]+
  rcat [RE.bnd, rliti "code", rstar (schar), rliti ":", rstar (schar), rplus (clsi (fun c => isWordChar c || c.isDigit))],
  -- \bredeem\s*(code|coupon|offer|points)\b
  rcat [RE.bnd, rliti "redeem", rstar (schar), RE.grp 1 (ralts [rliti "code", rliti "coupon", rliti "offer", rliti "points"]), RE.bnd],
  -- \bvoucher\s*code\b
  rcat [RE.bnd, rliti "voucher", rstar (schar), rliti "code", RE.bnd],
  -- \bfree\s*(shipping|delivery|gift|sample|trial|returns?|item|product)\b
  rcat [RE.bnd, rliti "free", rstar (schar), RE.grp 1 (ralts [rliti "shipping", rliti "delivery", rliti "gift", rliti "sample", rliti "trial", rcat [rliti "return", ropt (rchari 's')], rliti "item", rliti "product"]), RE.bnd],
  -- \bcomplimentary\s*(shipping|gift|upgrade)\b
  rcat [RE.bnd, rliti "complimentary", rstar (schar), RE.grp 1 (ralts [rliti "shipping", rliti "gift", rliti "upgrade"]), RE.bnd],
  -- \bno\s*(shipping|delivery)\s*(fee|cost|charge)\b
  rcat [RE.bnd, rliti "no", rstar (schar), RE.grp 1 (ralts [rliti "shipping", rliti "delivery"]), rstar (schar), RE.grp 2 (ralts [rliti "fee", rliti "cost", rliti "charge"]), RE.bnd],
  -- \bbuy\s*\d+\s*get\s*\d+\b
  rcat [RE.bnd, rliti "buy", rstar (schar), rplus (dchar), rstar (schar), rliti "get", rstar (schar), rplus (dchar), RE.bnd],
  -- \bbogo\b
  rcat [RE.bnd, rliti "bogo", RE.bnd],
  -- \bbuy\s*one\s*get\s*one\b
  rcat [RE.bnd, rliti "buy", rstar (schar), rliti "one", rstar (schar), rliti "get", rstar (schar), rliti "one", RE.bnd],
  -- \b\d+\s*for\s*\$?\₹?€?£?\d+\b
  rcat [RE.bnd, rplus (dchar), rstar (schar), rliti "for", rstar (schar), ropt (rchari '$'), ropt (rchari '₹'), ropt (rchari '€'), ropt (rchari '£'), rplus (dchar), RE.bnd],
  -- \bsale\s*(now|today|ends|starts?|event|online)\b
  rcat [RE.bnd, rliti "sale", rstar (schar), RE.grp 1 (ralts [rliti "now", rliti "today", rliti "ends", rcat [rliti "start", ropt (rchari 's')], rliti "event", rliti "online"]), RE.bnd],
  -- \bflash\s*sale\b
  rcat [RE.bnd, rliti "flash", rstar (schar), rliti "sale", RE.bnd],
  -- \bclearance\s*sale\b
  rcat [RE.bnd, rliti "clearance", rstar (schar), rliti "sale", RE.bnd],
  -- \bliquidation\s*sale\b
  rcat [RE.bnd, rliti "liquidation", rstar (schar), rliti "sale", RE.bnd],
  -- \bwarehouse\s*sale\b
  rcat [RE.bnd, rliti "warehouse", rstar (schar), rliti "sale", RE.bnd],
  -- \bgarage\s*sale\b
  rcat [RE.bnd, rliti "garage", rstar (schar), rliti "sale", RE.bnd],
  -- \bblowout\s*sale\b
  rcat [RE.bnd, rliti "blowout", rstar (schar), rliti "sale", RE.bnd],
  -- \bseasonal\s*sale\b
  rcat [RE.bnd, rliti "seasonal", rstar (schar), rliti "sale", RE.bnd],
  -- \bend\s*of\s*season\s*sale\b
  rcat [RE.bnd, rliti "end", rstar (schar), rliti "of", rstar (schar), rliti "season", rstar (schar), rliti "sale", RE.bnd],
  -- \bpre[-\s]?season\s*sale\b
  rcat [RE.bnd, rliti "pre", ropt (clsi (fun c => c == '-' || isSpaceChar c)), rliti "season", rstar (schar), rliti "sale", RE.bnd],
  -- \bmid[-\s]?season\s*sale\b
  rcat [RE.bnd, rliti "mid", ropt (clsi (fun c => c == '-' || isSpaceChar c)), rliti "season", rstar (schar), rliti "sale", RE.bnd],
  -- \blimited\s*time\s*(offer|deal|sale|only|discount)\b
  rcat [RE.bnd, rliti "limited", rstar (schar), rliti "time", rstar (schar), RE.grp 1 (ralts [rliti "offer", rliti "deal", rliti "sale", rliti "only", rliti "discount"]), RE.bnd],
  -- \btoday\s*only\b
  rcat [RE.bnd, rliti "today", rstar (schar), rliti "only", RE.bnd],
  -- \bweekend\s*(sale|offer|deal|special)\b
  rcat [RE.bnd, rliti "weekend", rstar (schar), RE.grp 1 (ralts [rliti "sale", rliti "offer", rliti "deal", rliti "special"]), RE.bnd],
  -- \b(24|48|72)\s*hour(s)?\s*(sale|flash|deal)\b
  rcat [RE.bnd, RE.grp 1 (ralts [rliti "24", rliti "48", rliti "72"]), rstar (schar), rliti "hour", ropt (RE.grp 2 (rliti "s")), rstar (schar), RE.grp 3 (ralts [rliti "sale", rliti "flash", rliti "deal"]), RE.bnd],
  -- \bends?\s*(today|tonight|tomorrow|soon|this\s+week|in\s*\d+)\b
  rcat [RE.bnd, rliti "end", ropt (rchari 's'), rstar (schar), RE.grp 1 (ralts [rliti "today", rliti "tonight", rliti "tomorrow", rliti "soon", rcat [rliti "this", rplus (schar), rliti "week"], rcat [rliti "in", rstar (schar), rplus (dchar)]]), RE.bnd],
  -- \bhurry!?\s*(limited|offer|ends|stock|time)\b
  rcat [RE.bnd, rliti "hurry", ropt (rchari '!'), rstar (schar), RE.grp 1 (ralts [rliti "limited", rliti "offer", rliti "ends", rliti "stock", rliti "time"]), RE.bnd],
  -- \blast\s*chance\b
  rcat [RE.bnd, rliti "last", rstar (schar), rliti "chance", RE.bnd],
  -- \bfinal\s*(hours?|days?|call)\b
  rcat [RE.bnd, rliti "final", rstar (schar), RE.grp 1 (ralts [rcat [rliti "hour", ropt (rchari 's')], rcat [rliti "day", ropt (rchari 's')], rliti "call"]), RE.bnd],
  -- \bdon\'?t\s*miss\s*(this|out|it)\b
  rcat [RE.bnd, rliti "don", ropt (rchari apos), rliti "t", rstar (schar), rliti "miss", rstar (schar), RE.grp 1 (ralts [rliti "this", rliti "out", rliti "it"]), RE.bnd],
  -- \bwhile\s*(supplies|stocks?)\s*last\b
  rcat [RE.bnd, rliti "while", rstar (schar), RE.grp 1 (ralts [rliti "supplies", rcat [rliti "stock", ropt (rchari 's')]]), rstar (schar), rliti "last", RE.bnd],
  -- \bact\s*now\b
  rcat [RE.bnd, rliti "act", rstar (schar), rliti "now", RE.bnd],
  -- \bexpir(es?|ing|ation)\s*(soon|today|tomorrow)\b
  rcat [RE.bnd, rliti "expir", RE.grp 1 (ralts [rcat [rliti "e", ropt (rchari 's')], rliti "ing", rliti "ation"]), rstar (schar), RE.grp 2 (ralts [rliti "soon", rliti "today", rliti "tomorrow"]), RE.bnd],
  -- \bexclusive\s*(offer|deal|discount|sale|access|price|savings)\b
  rcat [RE.bnd, rliti "exclusive", rstar (schar), RE.grp 1 (ralts [rliti "offer", rliti "deal", rliti "discount", rliti "sale", rliti "access", rliti "price", rliti "savings"]), RE.bnd],
  -- \bspecial\s*(offer|deal|discount|price|promotion|savings)\b
  rcat [RE.bnd, rliti "special", rstar (schar), RE.grp 1 (ralts [rliti "offer", rliti "deal", rliti "discount", rliti "price", rliti "promotion", rliti "savings"]), RE.bnd],
  -- \bmember\s*(exclusive|only|special|pricing|discount)\b
  rcat [RE.bnd, rliti "member", rstar (schar), RE.grp 1 (ralts [rliti "exclusive", rliti "only", rliti "special", rliti "pricing", rliti "discount"]), RE.bnd],
  -- \bvip\s*(offer|sale|discount|access|pricing)\b
  rcat [RE.bnd, rliti "vip", rstar (schar), RE.grp 1 (ralts [rliti "offer", rliti "sale", rliti "discount", rliti "access", rliti "pricing"]), RE.bnd],
  -- \bearly\s*(access|bird|shopper)\b
  rcat [RE.bnd, rliti "early", rstar (schar), RE.grp 1 (ralts [rliti "access", rliti "bird", rliti "shopper"]), RE.bnd],
  -- \bprivate\s*sale\b
  rcat [RE.bnd, rliti "private", rstar (schar), rliti "sale", RE.bnd],
  -- \binvite[-\s]?only\b
  rcat [RE.bnd, rliti "invite", ropt (clsi (fun c => c == '-' || isSpaceChar c)), rliti "only", RE.bnd],
  -- \bblack\s*friday\b
  rcat [RE.bnd, rliti "black", rstar (schar), rliti "friday", RE.bnd],
  -- \bcyber\s*monday\b
  rcat [RE.bnd, rliti "cyber", rstar (schar), rliti "monday", RE.bnd],
  -- \bprime\s*day\b
  rcat [RE.bnd, rliti "prime", rstar (schar), rliti "day", RE.bnd],
  -- \bholiday\s*(sale|offer|deal|savings|event)\b
  rcat [RE.bnd, rliti "holiday", rstar (schar), RE.grp 1 (ralts [rliti "sale", rliti "offer", rliti "deal", rliti "savings", rliti "event"]), RE.bnd],
  -- \bchristmas\s*(sale|offer|deals?)\b
  rcat [RE.bnd, rliti "christmas", rstar (schar), RE.grp 1 (ralts [rliti "sale", rliti "offer", rcat [rliti "deal", ropt (rchari 's')]]), RE.bnd],
  -- \bnew\s*year\s*(sale|offer|deals?)\b
  rcat [RE.bnd, rliti "new", rstar (schar), rliti "year", rstar (schar), RE.grp 1 (ralts [rliti "sale", rliti "offer", rcat [rliti "deal", ropt (rchari 's')]]), RE.bnd],
  -- \bvalentine\'?s?\s*(sale|deals?)\b
  rcat [RE.bnd, rliti "valentine", ropt (rchari apos), ropt (rchari 's'), rstar (schar), RE.grp 1 (ralts [rliti "sale", rcat [rliti "deal", ropt (rchari 's')]]), RE.bnd],
  -- \bmother\'?s?\s*day\s*(sale|deals?)\b
  rcat [RE.bnd, rliti "mother", ropt (rchari apos), ropt (rchari 's'), rstar (schar), rliti "day", rstar (schar), RE.grp 1 (ralts [rliti "sale", rcat [rliti "deal", ropt (rchari 's')]]), RE.bnd],
  -- \bfather\'?s?\s*day\s*(sale|deals?)\b
  rcat [RE.bnd, rliti "father", ropt (rchari apos), ropt (rchari 's'), rstar (schar), rliti "day", rstar (schar), RE.grp 1 (ralts [rliti "sale", rcat [rliti "deal", ropt (rchari 's')]]), RE.bnd],
  -- \bmemorial\s*day\s*(sale|deals?)\b
  rcat [RE.bnd, rliti "memorial", rstar (schar), rliti "day", rstar (schar), RE.grp 1 (ralts [rliti "sale", rcat [rliti "deal", ropt (rchari 's')]]), RE.bnd],
  -- \blabor\s*day\s*(sale|deals?)\b
  rcat [RE.bnd, rliti "labor", rstar (schar), rliti "day", rstar (schar), RE.grp 1 (ralts [rliti "sale", rcat [rliti "deal", ropt (rchari 's')]]), RE.bnd],
  -- \bback\s*to\s*school\b
  rcat [RE.bnd, rliti "back", rstar (schar), rliti "to", rstar (schar), rliti "school", RE.bnd],
  -- \bsummer\s*(sale|savings|clearance)\b
  rcat [RE.bnd, rliti "summer", rstar (schar), RE.grp 1 (ralts [rliti "sale", rliti "savings", rliti "clearance"]), RE.bnd],
  -- \bwinter\s*(sale|savings|clearance)\b
  rcat [RE.bnd, rliti "winter", rstar (schar), RE.grp 1 (ralts [rliti "sale", rliti "savings", rliti "clearance"]), RE.bnd],
  -- \bspring\s*(sale|savings)\b
  rcat [RE.bnd, rliti "spring", rstar (schar), RE.grp 1 (ralts [rliti "sale", rliti "savings"]), RE.bnd],
  -- \bfall\s*(sale|savings)\b
  rcat [RE.bnd, rliti "fall", rstar (schar), RE.grp 1 (ralts [rliti "sale", rliti "savings"]), RE.bnd],
  -- \bcashback\b
  rcat [RE.bnd, rliti "cashback", RE.bnd],
  -- \bcash\s*back\b
  rcat [RE.bnd, rliti "cash", rstar (schar), rliti "back", RE.bnd],
  -- \brewards?\s*(points|dollars|earnings)\b
  rcat [RE.bnd, rliti "reward", ropt (rchari 's'), rstar (schar), RE.grp 1 (ralts [rliti "points", rliti "dollars", rliti "earnings"]), RE.bnd],
  -- \bearn\s*\d+[x%]?\s*(points|rewards|cashback)\b
  rcat [RE.bnd, rliti "earn", rstar (schar), rplus (dchar), ropt (clsi (fun c => c == 'x' || c == '%')), rstar (schar), RE.grp 1 (ralts [rliti "points", rliti "rewards", rliti "cashback"]), RE.bnd],
  -- \bdouble\s*(points|rewards|cashback)\b
  rcat [RE.bnd, rliti "double", rstar (schar), RE.grp 1 (ralts [rliti "points", rliti "rewards", rliti "cashback"]), RE.bnd],
  -- \btriple\s*(points|rewards)\b
  rcat [RE.bnd, rliti "triple", rstar (schar), RE.grp 1 (ralts [rliti "points", rliti "rewards"]), RE.bnd],
  -- \bshop\s*now\s*(and|to|&)?\s*(save|get)\b
  rcat [RE.bnd, rliti "shop", rstar (schar), rliti "now", rstar (schar), ropt (RE.grp 1 (ralts [rliti "and", rliti "to", rliti "&"])), rstar (schar), RE.grp 2 (ralts [rliti "save", rliti "get"]), RE.bnd],
  -- \border\s*now\s*(and|to|&)?\s*(get|save)\b
  rcat [RE.bnd, rliti "order", rstar (schar), rliti "now", rstar (schar), ropt (RE.grp 1 (ralts [rliti "and", rliti "to", rliti "&"])), rstar (schar), RE.grp 2 (ralts [rliti "get", rliti "save"]), RE.bnd],
  -- \bbuy\s*now\s*(and|to|&)?\s*(save|get)\b
  rcat [RE.bnd, rliti "buy", rstar (schar), rliti "now", rstar (schar), ropt (RE.grp 1 (ralts [rliti "and", rliti "to", rliti "&"])), rstar (schar), RE.grp 2 (ralts [rliti "save", rliti "get"]), RE.bnd],
  -- \bclick\s*(here|now)\s*to\s*save\b
  rcat [RE.bnd, rliti "click", rstar (schar), RE.grp 1 (ralts [rliti "here", rliti "now"]), rstar (schar), rliti "to", rstar (schar), rliti "save", RE.bnd],
  -- \bsave\s*(big|more|today|now)\b
  rcat [RE.bnd, rliti "save", rstar (schar), RE.grp 1 (ralts [rliti "big", rliti "more", rliti "today", rliti "now"]), RE.bnd],
  -- \bhuge\s*(savings|discounts?)\b
  rcat [RE.bnd, rliti "huge", rstar (schar), RE.grp 1 (ralts [rliti "savings", rcat [rliti "discount", ropt (rchari 's')]]), RE.bnd],
  -- \bmassive\s*(savings|discounts?|sale)\b
  rcat [RE.bnd, rliti "massive", rstar (schar), RE.grp 1 (ralts [rliti "savings", rcat [rliti "discount", ropt (rchari 's')], rliti "sale"]), RE.bnd],
  -- \bunbeatable\s*(price|deal|offer)\b
  rcat [RE.bnd, rliti "unbeatable", rstar (schar), RE.grp 1 (ralts [rliti "price", rliti "deal", rliti "offer"]), RE.bnd],
  -- \blowest\s*price\b
  rcat [RE.bnd, rliti "lowest", rstar (schar), rliti "price", RE.bnd],
  -- \bbest\s*(price|deal|offer)\b
  rcat [RE.bnd, rliti "best", rstar (schar), RE.grp 1 (ralts [rliti "price", rliti "deal", rliti "offer"]), RE.bnd],
  -- \bprice\s*drop\b
  rcat [RE.bnd, rliti "price", rstar (schar), rliti "drop", RE.bnd],
  -- \bmark(ed)?\s*down\b
  rcat [RE.bnd, rliti "mark", ropt (RE.grp 1 (rliti "ed")), rstar (schar), rliti "down", RE.bnd]
]

/-- patterns_generalized.py lines 273-299: GIFTCARD_PATTERNS. -/
def GIFTCARD_PATTERNS : List RE := [
  -- \bgift\s*card\b
  rcat [RE.bnd, rliti "gift", rstar (schar), rliti "card", RE.bnd],
  -- \be[-\s]?gift\s*card\b
  rcat [RE.bnd, rliti "e", ropt (clsi (fun c => c == '-' || isSpaceChar c)), rliti "gift", rstar (schar), rliti "card", RE.bnd],
  -- \bgift\s*certificate\b
  rcat [RE.bnd, rliti "gift", rstar (schar), rliti "certificate", RE.bnd],
  -- \bdigital\s*gift\s*card\b
  rcat [RE.bnd, rliti "digital", rstar (schar), rliti "gift", rstar (schar), rliti "card", RE.bnd],
  -- \bvirtual\s*gift\s*card\b
  rcat [RE.bnd, rliti "virtual", rstar (schar), rliti "gift", rstar (schar), rliti "card", RE.bnd],
  -- \belectronic\s*gift\s*card\b
  rcat [RE.bnd, rliti "electronic", rstar (schar), rliti "gift", rstar (schar), rliti "card", RE.bnd],
  -- \bgift\s*card\s*(sent|delivered|received|ready|activated)\b
  rcat [RE.bnd, rliti "gift", rstar (schar), rliti "card", rstar (schar), RE.grp 1 (ralts [rliti "sent", rliti "delivered", rliti "received", rliti "ready", rliti "activated"]), RE.bnd],
  -- \breceived\s*a\s*gift\s*card\b
  rcat [RE.bnd, rliti "received", rstar (schar), rliti "a", rstar (schar), rliti "gift", rstar (schar), rliti "card", RE.bnd],
  -- \byour\s*gift\s*card\b
  rcat [RE.bnd, rliti "your", rstar (schar), rliti "gift", rstar (schar), rliti "card", RE.bnd],
  -- \bredeem\s*(your\s*)?gift\s*card\b
  rcat [RE.bnd, rliti "redeem", rstar (schar), ropt (RE.grp 1 (rcat [rliti "your", rstar (schar)])), rliti "gift", rstar (schar), rliti "card", RE.bnd],
  -- \bclaim\s*(your\s*)?gift\s*card\b
  rcat [RE.bnd, rliti "claim", rstar (schar), ropt (RE.grp 1 (rcat [rliti "your", rstar (schar)])), rliti "gift", rstar (schar), rliti "card", RE.bnd],
  -- \bcard\s*number\s*:?\s*[\d\s-]+\b
  rcat [RE.bnd, rliti "card", rstar (schar), rliti "number", rstar (schar), ropt (rchari ':'), rstar (schar), rplus (clsi (fun c => c.isDigit || isSpaceChar c || c == '-')), RE.bnd],
  -- \bpin\s*:?\s*\d+\b
  rcat [RE.bnd, rliti "pin", rstar (schar), ropt (rchari ':'), rstar (schar), rplus (dchar), RE.bnd],
  -- \bcard\s*value\s*:?\s*[$₹€£¥]?\d+
  rcat [RE.bnd, rliti "card", rstar (schar), rliti "value", rstar (schar), ropt (rchari ':'), rstar (schar), ropt (clsi (fun c => c == '$' || c == '₹' || c == '€' || c == '£' || c == '¥')), rplus (dchar)],
  -- \bgift\s*card\s*balance\b
  rcat [RE.bnd, rliti "gift", rstar (schar), rliti "card", rstar (schar), rliti "balance", RE.bnd],
  -- \bgift\s*card\s*code\b
  rcat [RE.bnd, rliti "gift", rstar (schar), rliti "card", rstar (schar), rliti "code", RE.bnd],
  -- \bstore\s*credit\b
  rcat [RE.bnd, rliti "store", rstar (schar), rliti "credit", RE.bnd],
  -- \baccount\s*credit\b
  rcat [RE.bnd, rliti "account", rstar (schar), rliti "credit", RE.bnd]
]

/-- patterns_generalized.py lines 305-324: ORDER_PATTERNS. -/
def ORDER_PATTERNS : List RE := [
  -- \border\s+(confirmation|confirmed|received|placed)\b
  rcat [RE.bnd, rliti "order", rplus (schar), RE.grp 1 (ralts [rliti "confirmation", rliti "confirmed", rliti "received", rliti "placed"]), RE.bnd],
  -- \bwe\s+(received|got)\s+(your\s+)?order\b
  rcat [RE.bnd, rliti "we", rplus (schar), RE.grp 1 (ralts [rliti "received", rliti "got"]), rplus (schar), ropt (RE.grp 2 (rcat [rliti "your", rplus (schar)])), rliti "order", RE.bnd],
  -- \byour\s+order\s+(has\s+been|is|was)\s+(received|confirmed|placed|processing)\b
  rcat [RE.bnd, rliti "your", rplus (schar), rliti "order", rplus (schar), RE.grp 1 (ralts [rcat [rliti "has", rplus (schar), rliti "been"], rliti "is", rliti "was"]), rplus (schar), RE.grp 2 (ralts [rliti "received", rliti "confirmed", rliti "placed", rliti "processing"]), RE.bnd],
  -- \bthank\s+you\s+for\s+(your\s+)?order\b
  rcat [RE.bnd, rliti "thank", rplus (schar), rliti "you", rplus (schar), rliti "for", rplus (schar), ropt (RE.grp 1 (rcat [rliti "your", rplus (schar)])), rliti "order", RE.bnd],
  -- \border\s+(number|#|id)\s*:?\s*[A-Z0-9-]+\b
  rcat [RE.bnd, rliti "order", rplus (schar), RE.grp 1 (ralts [rliti "number", rliti "#", rliti "id"]), rstar (schar), ropt (rchari ':'), rstar (schar), rplus (clsi (fun c => ('A' ≤ c && c ≤ 'Z') || ('0' ≤ c && c ≤ '9') || c == '-')), RE.bnd],
  -- \b(shipped|shipping|delivery|delivered|dispatched)\s+(confirmation|notification|update|status)\b
  rcat [RE.bnd, RE.grp 1 (ralts [rliti "shipped", rliti "shipping", rliti "delivery", rliti "delivered", rliti "dispatched"]), rplus (schar), RE.grp 2 (ralts [rliti "confirmation", rliti "notification", rliti "update", rliti "status"]), RE.bnd],
  -- \byour\s+(order|package|item)\s+(has\s+)?(shipped|been\s+shipped|is\s+on\s+the\s+way)\b
  rcat [RE.bnd, rliti "your", rplus (schar), RE.grp 1 (ralts [rliti "order", rliti "package", rliti "item"]), rplus (schar), ropt (RE.grp 2 (rcat [rliti "has", rplus (schar)])), RE.grp 3 (ralts [rliti "shipped", rcat [rliti "been", rplus (schar), rliti "shipped"], rcat [rliti "is", rplus (schar), rliti "on", rplus (schar), rliti "the", rplus (schar), rliti "way"]]), RE.bnd],
  -- \btracking\s+(number|#|id|information|details)\b
  rcat [RE.bnd, rliti "tracking", rplus (schar), RE.grp 1 (ralts [rliti "number", rliti "#", rliti "id", rliti "information", rliti "details"]), RE.bnd],
  -- \bdelivery\s+(date|time|estimate|scheduled)\b
  rcat [RE.bnd, rliti "delivery", rplus (schar), RE.grp 1 (ralts [rliti "date", rliti "time", rliti "estimate", rliti "scheduled"]), RE.bnd],
  -- \bout\s+for\s+delivery\b
  rcat [RE.bnd, rliti "out", rplus (schar), rliti "for", rplus (schar), rliti "delivery", RE.bnd],
  -- \border\s+status\b
  rcat [RE.bnd, rliti "order", rplus (schar), rliti "status", RE.bnd],
  -- \bprocessing\s+your\s+order\b
  rcat [RE.bnd, rliti "processing", rplus (schar), rliti "your", rplus (schar), rliti "order", RE.bnd],
  -- \bpreparing\s+(your\s+)?(order|shipment)\b
  rcat [RE.bnd, rliti "preparing", rplus (schar), ropt (RE.grp 1 (rcat [rliti "your", rplus (schar)])), RE.grp 2 (ralts [rliti "order", rliti "shipment"]), RE.bnd]
]

/-- Searching the `|`-join of a pattern list is equivalent to
searching each pattern separately; the boolean tests use that form. -/
def anyTest (pats : List RE) (s : String) : Bool := pats.any (fun p => reTest p s)

/-- Python `findall` on the `|`-join: at each position the first
listed pattern that matches wins. -/
def joinFindAll (pats : List RE) (s : String) : List String := reFindAll (ralts pats) s

/-! ## patterns_generalized.py: domain classification and analyze_text -/

-- analyze_text line 541: gift-card provider sender pattern (re.match, IGNORECASE)
-- [a-zA-Z0-9._%+-]+@(?:freecash\.com|yougov\.com|surveyjunkie\.com|swagbucks\.com|inboxdollars\.com|prolific\.com|pineconeresearch\.com|surveynetwork\.com|mypoints\.com|usertesting\.com|fetch\.com|ibotta\.com|receipthog\.com|receiptpal\.com|coinout\.com|getmiles\.com|upside\.com|aarp\.org|aaa\.com|raise\.com|cardcash\.com)
def giftcardProviderRE : RE :=
  rcat [rplus (clsi (fun c => ('a' ≤ c && c ≤ 'z') || ('A' ≤ c && c ≤ 'Z') || ('0' ≤ c && c ≤ '9') || c == '.' || c == '_' || c == '%' || c == '+' || c == '-')), rliti "@", (ralts [rliti "freecash.com", rliti "yougov.com", rliti "surveyjunkie.com", rliti "swagbucks.com", rliti "inboxdollars.com", rliti "prolific.com", rliti "pineconeresearch.com", rliti "surveynetwork.com", rliti "mypoints.com", rliti "usertesting.com", rliti "fetch.com", rliti "ibotta.com", rliti "receipthog.com", rliti "receiptpal.com", rliti "coinout.com", rliti "getmiles.com", rliti "upside.com", rliti "aarp.org", rliti "aaa.com", rliti "raise.com", rliti "cardcash.com"])]

-- analyze_text line 553: sale_keywords (IGNORECASE)
-- \b(sale|clearance|promotion|promotional|flash\s*sale|half\s*yearly|end\s*of\s*season|seasonal\s*sale|warehouse\s*sale|up\s*to\s+\d+%\s*off|\d+%\s*off|\d+%[-\s]*\d+%\s*off)\b
def saleKeywordsRE : RE :=
  rcat [RE.bnd, RE.grp 1 (ralts [rliti "sale", rliti "clearance", rliti "promotion", rliti "promotional", rcat [rliti "flash", rstar (schar), rliti "sale"], rcat [rliti "half", rstar (schar), rliti "yearly"], rcat [rliti "end", rstar (schar), rliti "of", rstar (schar), rliti "season"], rcat [rliti "seasonal", rstar (schar), rliti "sale"], rcat [rliti "warehouse", rstar (schar), rliti "sale"], rcat [rliti "up", rstar (schar), rliti "to", rplus (schar), rplus (dchar), rliti "%", rstar (schar), rliti "off"], rcat [rplus (dchar), rliti "%", rstar (schar), rliti "off"], rcat [rplus (dchar), rliti "%", rstar (clsi (fun c => c == '-' || isSpaceChar c)), rplus (dchar), rliti "%", rstar (schar), rliti "off"]]), RE.bnd]

-- analyze_text line 569: gift_card_option_pattern (IGNORECASE)
-- \b(buy|purchase|shop for|give|send)\s+(?:a\s+)?gift\s*card
def giftCardOptionRE : RE :=
  rcat [RE.bnd, RE.grp 1 (ralts [rliti "buy", rliti "purchase", rliti "shop for", rliti "give", rliti "send"]), rplus (schar), ropt ((rcat [rliti "a", rplus (schar)])), rliti "gift", rstar (schar), rliti "card"]

-- analyze_text lines 584-587: code_patterns (IGNORECASE)
def code_patterns : List RE := [
  -- (?:Coupon\s*Code|Promo\s*Code|Code|Use\s*Code|Discount\s*Code|Offer\s*Code)\s*[:\s]+([A-Z0-9]{4,20})
  rcat [(ralts [rcat [rliti "Coupon", rstar (schar), rliti "Code"], rcat [rliti "Promo", rstar (schar), rliti "Code"], rliti "Code", rcat [rliti "Use", rstar (schar), rliti "Code"], rcat [rliti "Discount", rstar (schar), rliti "Code"], rcat [rliti "Offer", rstar (schar), rliti "Code"]]), rstar (schar), rplus (clsi (fun c => c == ':' || isSpaceChar c)), RE.grp 1 (rrange 4 20 (clsi (fun c => ('A' ≤ c && c ≤ 'Z') || ('0' ≤ c && c ≤ '9'))))],
  -- (?:Apply|Enter|Use)\s+(?:code\s+)?["\']?([A-Z0-9]{4,20})["\']?
  rcat [(ralts [rliti "Apply", rliti "Enter", rliti "Use"]), rplus (schar), ropt ((rcat [rliti "code", rplus (schar)])), ropt (clsi (fun c => c == qch || c == apos)), RE.grp 1 (rrange 4 20 (clsi (fun c => ('A' ≤ c && c ≤ 'Z') || ('0' ≤ c && c ≤ '9')))), ropt (clsi (fun c => c == qch || c == apos))]
]

-- analyze_text line 606: promo_code_pattern (case-sensitive, no flags)
-- \b([A-Z]+\d+[A-Z0-9]*|[0-9]+[A-Z]+[A-Z0-9]*)\b
def promoCodeRE : RE :=
  rcat [RE.bnd, RE.grp 1 (ralts [rcat [rplus (RE.cls (fun c => ('A' ≤ c && c ≤ 'Z'))), rplus (dchar), rstar (RE.cls (fun c => ('A' ≤ c && c ≤ 'Z') || ('0' ≤ c && c ≤ '9')))], rcat [rplus (RE.cls (fun c => ('0' ≤ c && c ≤ '9'))), rplus (RE.cls (fun c => ('A' ≤ c && c ≤ 'Z'))), rstar (RE.cls (fun c => ('A' ≤ c && c ≤ 'Z') || ('0' ≤ c && c ≤ '9')))]]), RE.bnd]

-- analyze_text line 609: discount_pattern (IGNORECASE)
-- \b\d{1,2}%\s+off|\$\d+\s+off
def discountRE : RE :=
  ralts [rcat [RE.bnd, rrange 1 2 (dchar), rliti "%", rplus (schar), rliti "off"], rcat [rliti "$", rplus (dchar), rplus (schar), rliti "off"]]

/-- is_commercial_domain, lines 350-355: personal email providers. -/
def personal_domains : List String := ["gmail.com", "yahoo.com", "hotmail.com", "outlook.com", "aol.com", "icloud.com", "mail.com", "protonmail.com", "live.com", "msn.com", "yandex.com", "zoho.com", "inbox.com", "gmx.com", "fastmail.com"]

/-- is_commercial_domain, lines 365-375: excluded social/tech/forum platforms. -/
def excluded_platforms : List String := ["reddit.com", "twitter.com", "x.com", "facebook.com", "instagram.com", "linkedin.com", "github.com", "gitlab.com", "slack.com", "discord.com", "telegram.org", "whatsapp.com", "quora.com", "medium.com", "substack.com", "stackoverflow.com", "meetup.com", "eventbrite.com", "replit.com", "vercel.com", "netlify.com", "heroku.com", "digitalocean.com", "aws.amazon.com", "cloud.google.com", "azure.microsoft.com", "notion.so", "figma.com", "canva.com", "airtable.com", "trello.com", "asana.com", "monday.com", "atlassian.com", "jira.com", "confluence.com"]

/-- is_commercial_domain, lines 380-408: known shopping/retail domains. -/
def known_shopping_domains : List String := ["amazon.com", "ebay.com", "walmart.com", "target.com", "bestbuy.com", "costco.com", "macys.com", "nordstrom.com", "nordstromrack.com", "kohls.com", "jcpenney.com", "homedepot.com", "lowes.com", "wayfair.com", "overstock.com", "etsy.com", "zappos.com", "sephora.com", "ulta.com", "nike.com", "adidas.com", "gap.com", "oldnavy.com", "bananarepublic.com", "athleta.com", "victoriassecret.com", "bathandbodyworks.com", "bedbathandbeyond.com", "crateandbarrel.com", "potterybarn.com", "westelm.com", "ikea.com", "staples.com", "officedepot.com", "petco.com", "petsmart.com", "chewy.com", "wholefoodsmarket.com", "kroger.com", "safeway.com", "albertsons.com", "ralphs.com", "instacart.com", "shipt.com", "shopify.com", "square.com", "stripe.com", "paypal.com", "rei.com", "dickssportinggoods.com", "samsclub.com", "bjs.com", "traderjoes.com", "aldi.us", "lidl.com", "tjmaxx.com", "marshalls.com", "homegoods.com", "ross.com", "burlington.com", "dsw.com", "footlocker.com", "fanatics.com", "nfl.com", "nba.com", "mlb.com", "underarmour.com", "lululemon.com", "patagonia.com", "northface.com", "columbia.com", "anthropologie.com", "urbanoutfitters.com", "freepeople.com", "forever21.com", "hm.com", "zara.com", "uniqlo.com", "guess.com", "ralphlauren.com", "calvinklein.com", "tommy.com", "express.com", "ae.com", "abercrombie.com", "hollisterco.com", "aeropostale.com", "williams-sonoma.com", "surlatable.com", "chefswarehouse.com", "autozone.com", "advanceautoparts.com", "oreilly.com", "pepboys.com", "gamestop.com", "barnesandnoble.com", "michaels.com", "joann.com", "hobbylobby.com", "acmoore.com", "partycity.com", "spirithalloween.com", "build.com", "houzz.com", "roomstogo.com", "ashleyfurniture.com", "bobs.com", "valuecityfurniture.com", "americansignaturefurniture.com", "pier1.com", "kirklands.com", "worldmarket.com", "atgstores.com"]

/-- is_commercial_domain, lines 416-419: retail-indicating substrings. -/
def shopping_indicators : List String := ["shop", "store", "retail", "market", "mall", "outlet", "ecom", "commerce", "cart", "deals", "sale"]

/-- is_commercial_domain, lines 433-438: gift card provider domains. -/
def giftcard_providers : List String := ["freecash.com", "yougov.com", "swagbucks.com", "mypoints.com", "inboxdollars.com", "prizerebel.com", "grabpoints.com", "giftcardgranny.com", "raise.com", "cardcash.com", "cardpool.com", "giftcards.com", "egifter.com", "gyft.com"]

/-- categorize_from_sender line 466: card/banking keywords. -/
def card_keywords : List String := ["card", "amex", "chase", "citi", "capital", "discover", "visa", "mastercard", "bank", "credit", "rewards"]

/-- categorize_from_sender line 472: membership keywords. -/
def membership_keywords : List String := ["member", "subscription", "prime", "plus", "premium", "club", "boost", "vip", "elite", "loyalty", "insider", "rewards"]

/-- categorize_from_sender line 478: retail/shopping keywords. -/
def retail_keywords : List String := ["shop", "store", "retail", "deals", "offers", "promo", "sale", "discount", "coupon", "market", "mall"]

/-! ## patterns_generalized.py: boolean classifiers and the category resolver -/

/-- patterns_generalized.py lines 489-493: is_membership. -/
def is_membership (text : String) : Bool := text != "" && anyTest MEMBERSHIP_PATTERNS text

/-- patterns_generalized.py lines 496-500: is_offer. -/
def is_offer (text : String) : Bool := text != "" && anyTest OFFER_PATTERNS text

/-- patterns_generalized.py lines 503-507: is_coupon. -/
def is_coupon (text : String) : Bool := text != "" && anyTest COUPON_PATTERNS text

/-- patterns_generalized.py lines 510-514: is_order_related. -/
def is_order_related (text : String) : Bool := text != "" && anyTest ORDER_PATTERNS text

/-- patterns_generalized.py lines 517-521: is_giftcard. -/
def is_giftcard (text : String) : Bool := text != "" && anyTest GIFTCARD_PATTERNS text

/-- patterns_generalized.py lines 334-446: is_commercial_domain. The only
reachable exception in the `try` block is an email part without `@`
(IndexError on `split('@')[1]`), which the `except` maps to `False`. -/
def is_commercial_domain (sender : String) : Bool :=
  if sender == "" || !pyIn "@" sender then false
  else
    let email_part := pyStrip ((pySplit '>' ((pySplit '<' sender).getLastD "")).headD "")
    if !pyIn "@" email_part then false
    else
      let domain := pyLower ((pySplit '@' email_part).getD 1 "")
      let parts := pySplit '.' domain
      let base_domain := String.intercalate "." (parts.drop (parts.length - 2))
      if personal_domains.contains base_domain then false
      else if pyIn "innovinlabs.com" domain then false
      else if excluded_platforms.any (fun ex => pyIn ex domain) then false
      else if known_shopping_domains.any (fun known => pyIn known domain) then true
      else
        let has_shopping_keyword := shopping_indicators.any (fun i => pyIn i domain)
        let is_commerce_tld := pyEndsWith domain ".com" || pyEndsWith domain ".shop" ||
          pyEndsWith domain ".store" || pyEndsWith domain ".biz"
        if has_shopping_keyword && is_commerce_tld then true
        else if pyEndsWith domain ".shop" || pyEndsWith domain ".store" then true
        else if giftcard_providers.any (fun p => pyIn p domain) then true
        else false

/-- patterns_generalized.py lines 449-486: categorize_from_sender. -/
def categorize_from_sender (sender : String) : String :=
  if sender == "" then "unknown"
  else
    let email_part := pyLower (pyStrip ((pySplit '>' ((pySplit '<' sender).getLastD "")).headD ""))
    let name_part := if pyIn "<" sender then pyLower (pyStrip ((pySplit '<' sender).headD "")) else ""
    let domain := if pyIn "@" email_part then (pySplit '@' email_part).getD 1 "" else ""
    if card_keywords.any (fun k => pyIn k domain || pyIn k name_part) then "offer"
    else if membership_keywords.any (fun k => pyIn k domain || pyIn k name_part) then "membership"
    else if retail_keywords.any (fun k => pyIn k domain || pyIn k name_part) then "coupon"
    else "unknown"

/-- analyze_text lines 553-558: `is_promotional_sale`, checked on the subject
first and on the body only when the subject did not match. -/
def promotionalSale (text body : String) : Bool :=
  if !reTest saleKeywordsRE text && body != "" then reTest saleKeywordsRE body
  else reTest saleKeywordsRE text

/-- analyze_text lines 562-563: `membership_found` after the body fallback. -/
def membershipSignal (text body : String) : Bool :=
  if !is_membership text && body != "" then is_membership body else is_membership text

/-- analyze_text lines 564-572: `giftcard_found` after the body fallback and
the promotional-sale purchase-option suppression. -/
def giftcardSignal (text body : String) (promoSale : Bool) : Bool :=
  if !is_giftcard text && body != "" then
    let g := is_giftcard body
    if g && promoSale && reTest giftCardOptionRE body then false else g
  else is_giftcard text

/-- analyze_text lines 575-577: `is_order`. -/
def orderSignal (text body : String) : Bool :=
  if !is_order_related text && body != "" then is_order_related body else is_order_related text

/-- analyze_text lines 584-592: a coupon code is found in the body. -/
def hasCouponCode (body : String) : Bool := code_patterns.any (fun p => reTest p body)

/-- analyze_text line 581: the membership-adjacent trigger of the coupon
demotion (membership signal, or `rewards`/`points` in the subject). -/
def membershipLikeSignal (text body : String) : Bool :=
  membershipSignal text body || pyIn "rewards" (pyLower text) || pyIn "points" (pyLower text)

/-- analyze_text lines 581-596: `coupon_found` after the demotion step. -/
def couponSignal (text body : String) : Bool :=
  if is_coupon text && membershipLikeSignal text body then
    if body != "" then
      if !hasCouponCode body then false else is_coupon text
    else is_coupon text
  else is_coupon text

/-- analyze_text lines 603-613: `has_promo_content` (the alphanumeric
promo-code scan is case-sensitive; the discount scan is IGNORECASE). -/
def hasPromoContent (body : String) : Bool :=
  if body != "" then
    (reFindAll promoCodeRE body).length > 0 || reTest discountRE body
  else false

structure AnalysisResult where
  category : String
  membership_matches : List String
  offer_matches : List String
  coupon_matches : List String
  giftcard_matches : List String
  is_shopping_domain : Bool
deriving Repr, DecidableEq

/-- analyze_text lines 541-542: the sender is a known gift-card provider
(`bool (re.match (...)) if sender else False`). -/
def giftcardProviderSignal (sender : String) : Bool :=
  if sender != "" then reMatchStart giftcardProviderRE sender else false

/-- analyze_text lines 615-635: the category priority chain
(order, provider sender, non-promotional gift card, promo content or coupon,
membership, offer, default). -/
def resolveCategory (is_order giftcard_provider giftcard_found is_promotional_sale
    has_promo_content coupon_found : Bool) (sender_category : String)
    (membership_found offer_found : Bool) : String :=
  if is_order then "Normal"
  else if giftcard_provider then "GiftCard"
  else if giftcard_found && !is_promotional_sale then "GiftCard"
  else if has_promo_content || coupon_found then "Coupon"
  else if sender_category == "membership" || membership_found then "Membership"
  else if sender_category == "offer" || offer_found then "Offer"
  else "Normal"

/-- patterns_generalized.py lines 524-644: analyze_text. The sequential
reassignments of the Python locals are the signal functions above; the final
category chain is `resolveCategory`. -/
def analyze_text (text sender body : String) : AnalysisResult :=
  let sender_category := categorize_from_sender sender
  let giftcard_provider := giftcardProviderSignal sender
  let offer_found := is_offer text
  let commercial := is_commercial_domain sender
  let is_promotional_sale := promotionalSale text body
  let membership_found := membershipSignal text body
  let giftcard_found := giftcardSignal text body is_promotional_sale
  let is_order := orderSignal text body
  let coupon_found := couponSignal text body
  let has_promo_content := hasPromoContent body
  let category := resolveCategory is_order giftcard_provider giftcard_found
    is_promotional_sale has_promo_content coupon_found sender_category
    membership_found offer_found
  { category := category
    membership_matches := if membership_found then (joinFindAll MEMBERSHIP_PATTERNS text).take 5 else []
    offer_matches := if offer_found then (joinFindAll OFFER_PATTERNS text).take 5 else []
    coupon_matches := if coupon_found then (joinFindAll COUPON_PATTERNS text).take 5 else []
    giftcard_matches := if giftcard_found then (joinFindAll GIFTCARD_PATTERNS text).take 5 else []
    is_shopping_domain := commercial }

/-! ## analyzer.py: entity extractors -/

/-- analyzer.py lines 43-48: card-name body patterns (IGNORECASE). -/
def cc_body_patterns : List RE := [
  -- Welcome to\s+([A-Z][A-Za-z0-9\s¬Æ]+?)\s+(?:Credit )?Card
  rcat [rliti "Welcome to", rplus (schar), RE.grp 1 (rcat [clsi (fun c => ('A' ≤ c && c ≤ 'Z')), rplusl (clsi (fun c => ('A' ≤ c && c ≤ 'Z') || ('a' ≤ c && c ≤ 'z') || ('0' ≤ c && c ≤ '9') || isSpaceChar c || c == '¬' || c == 'Æ'))]), rplus (schar), ropt ((rliti "Credit ")), rliti "Card"],
  -- Congratulations on your\s+([A-Z][A-Za-z0-9\s¬Æ]+?)\s+approval
  rcat [rliti "Congratulations on your", rplus (schar), RE.grp 1 (rcat [clsi (fun c => ('A' ≤ c && c ≤ 'Z')), rplusl (clsi (fun c => ('A' ≤ c && c ≤ 'Z') || ('a' ≤ c && c ≤ 'z') || ('0' ≤ c && c ≤ '9') || isSpaceChar c || c == '¬' || c == 'Æ'))]), rplus (schar), rliti "approval"],
  -- Your\s+([A-Z][A-Za-z0-9\s¬Æ]+?)\s+(?:Credit )?Card\s+(?:is|has been)
  rcat [rliti "Your", rplus (schar), RE.grp 1 (rcat [clsi (fun c => ('A' ≤ c && c ≤ 'Z')), rplusl (clsi (fun c => ('A' ≤ c && c ≤ 'Z') || ('a' ≤ c && c ≤ 'z') || ('0' ≤ c && c ≤ '9') || isSpaceChar c || c == '¬' || c == 'Æ'))]), rplus (schar), ropt ((rliti "Credit ")), rliti "Card", rplus (schar), (ralts [rliti "is", rliti "has been"])],
  -- activate your\s+([A-Z][A-Za-z0-9\s¬Æ]+?)\s+(?:Credit )?Card
  rcat [rliti "activate your", rplus (schar), RE.grp 1 (rcat [clsi (fun c => ('A' ≤ c && c ≤ 'Z')), rplusl (clsi (fun c => ('A' ≤ c && c ≤ 'Z') || ('a' ≤ c && c ≤ 'z') || ('0' ≤ c && c ≤ '9') || isSpaceChar c || c == '¬' || c == 'Æ'))]), rplus (schar), ropt ((rliti "Credit ")), rliti "Card"]
]

/-- analyzer.py lines 65-108: ordered issuer-specific card patterns (IGNORECASE). -/
def cc_card_patterns : List RE := [
  -- (American Express[\s¬Æ]*(?:Blue Cash Everyday|Blue Cash Preferred|Gold|Platinum|Green|Delta SkyMiles|Hilton Honors|Marriott Bonvoy)?)[\s¬Æ]*(?:Credit )?Card
  rcat [RE.grp 1 (rcat [rliti "American Express", rstar (clsi (fun c => isSpaceChar c || c == '¬' || c == 'Æ')), ropt ((ralts [rliti "Blue Cash Everyday", rliti "Blue Cash Preferred", rliti "Gold", rliti "Platinum", rliti "Green", rliti "Delta SkyMiles", rliti "Hilton Honors", rliti "Marriott Bonvoy"]))]), rstar (clsi (fun c => isSpaceChar c || c == '¬' || c == 'Æ')), ropt ((rliti "Credit ")), rliti "Card"],
  -- (Amex[\s¬Æ]*(?:Blue Cash Everyday|Blue Cash Preferred|Gold|Platinum|Green)?)[\s¬Æ]*(?:Credit )?Card
  rcat [RE.grp 1 (rcat [rliti "Amex", rstar (clsi (fun c => isSpaceChar c || c == '¬' || c == 'Æ')), ropt ((ralts [rliti "Blue Cash Everyday", rliti "Blue Cash Preferred", rliti "Gold", rliti "Platinum", rliti "Green"]))]), rstar (clsi (fun c => isSpaceChar c || c == '¬' || c == 'Æ')), ropt ((rliti "Credit ")), rliti "Card"],
  -- (Delta SkyMiles[\s¬Æ]*(?:Gold|Platinum|Reserve|Blue)?[\s¬Æ]*(?:Business)?[\s¬Æ]*(?:American Express)?)[\s¬Æ]*(?:Credit )?Card
  rcat [RE.grp 1 (rcat [rliti "Delta SkyMiles", rstar (clsi (fun c => isSpaceChar c || c == '¬' || c == 'Æ')), ropt ((ralts [rliti "Gold", rliti "Platinum", rliti "Reserve", rliti "Blue"])), rstar (clsi (fun c => isSpaceChar c || c == '¬' || c == 'Æ')), ropt ((rliti "Business")), rstar (clsi (fun c => isSpaceChar c || c == '¬' || c == 'Æ')), ropt ((rliti "American Express"))]), rstar (clsi (fun c => isSpaceChar c || c == '¬' || c == 'Æ')), ropt ((rliti "Credit ")), rliti "Card"],
  -- (Chase[\s¬Æ]*Sapphire Reserve)[\s¬Æ]*(?:Credit )?Card
  rcat [RE.grp 1 (rcat [rliti "Chase", rstar (clsi (fun c => isSpaceChar c || c == '¬' || c == 'Æ')), rliti "Sapphire Reserve"]), rstar (clsi (fun c => isSpaceChar c || c == '¬' || c == 'Æ')), ropt ((rliti "Credit ")), rliti "Card"],
  -- (Chase[\s¬Æ]*Sapphire Preferred)[\s¬Æ]*(?:Credit )?Card
  rcat [RE.grp 1 (rcat [rliti "Chase", rstar (clsi (fun c => isSpaceChar c || c == '¬' || c == 'Æ')), rliti "Sapphire Preferred"]), rstar (clsi (fun c => isSpaceChar c || c == '¬' || c == 'Æ')), ropt ((rliti "Credit ")), rliti "Card"],
  -- (Chase[\s¬Æ]*Freedom Unlimited)[\s¬Æ]*(?:Credit )?Card
  rcat [RE.grp 1 (rcat [rliti "Chase", rstar (clsi (fun c => isSpaceChar c || c == '¬' || c == 'Æ')), rliti "Freedom Unlimited"]), rstar (clsi (fun c => isSpaceChar c || c == '¬' || c == 'Æ')), ropt ((rliti "Credit ")), rliti "Card"],
  -- (Chase[\s¬Æ]*Freedom Flex)[\s¬Æ]*(?:Credit )?Card
  rcat [RE.grp 1 (rcat [rliti "Chase", rstar (clsi (fun c => isSpaceChar c || c == '¬' || c == 'Æ')), rliti "Freedom Flex"]), rstar (clsi (fun c => isSpaceChar c || c == '¬' || c == 'Æ')), ropt ((rliti "Credit ")), rliti "Card"],
  -- (Chase[\s¬Æ]*Freedom)[\s¬Æ]*(?:Credit )?Card
  rcat [RE.grp 1 (rcat [rliti "Chase", rstar (clsi (fun c => isSpaceChar c || c == '¬' || c == 'Æ')), rliti "Freedom"]), rstar (clsi (fun c => isSpaceChar c || c == '¬' || c == 'Æ')), ropt ((rliti "Credit ")), rliti "Card"],
  -- (Chase[\s¬Æ]*Ink Business)[\s¬Æ]*(?:Credit )?Card
  rcat [RE.grp 1 (rcat [rliti "Chase", rstar (clsi (fun c => isSpaceChar c || c == '¬' || c == 'Æ')), rliti "Ink Business"]), rstar (clsi (fun c => isSpaceChar c || c == '¬' || c == 'Æ')), ropt ((rliti "Credit ")), rliti "Card"],
  -- (Capital One[\s¬Æ]*Venture X Rewards?)[\s¬Æ]*(?:Credit )?Card
  rcat [RE.grp 1 (rcat [rliti "Capital One", rstar (clsi (fun c => isSpaceChar c || c == '¬' || c == 'Æ')), rliti "Venture X Reward", ropt (rchari 's')]), rstar (clsi (fun c => isSpaceChar c || c == '¬' || c == 'Æ')), ropt ((rliti "Credit ")), rliti "Card"],
  -- (Capital One[\s¬Æ]*Venture Rewards?)[\s¬Æ]*(?:Credit )?Card
  rcat [RE.grp 1 (rcat [rliti "Capital One", rstar (clsi (fun c => isSpaceChar c || c == '¬' || c == 'Æ')), rliti "Venture Reward", ropt (rchari 's')]), rstar (clsi (fun c => isSpaceChar c || c == '¬' || c == 'Æ')), ropt ((rliti "Credit ")), rliti "Card"],
  -- (Capital One[\s¬Æ]*Venture)[\s¬Æ]*(?:Credit )?Card
  rcat [RE.grp 1 (rcat [rliti "Capital One", rstar (clsi (fun c => isSpaceChar c || c == '¬' || c == 'Æ')), rliti "Venture"]), rstar (clsi (fun c => isSpaceChar c || c == '¬' || c == 'Æ')), ropt ((rliti "Credit ")), rliti "Card"],
  -- (Capital One[\s¬Æ]*Quicksilver)[\s¬Æ]*(?:Credit )?Card
  rcat [RE.grp 1 (rcat [rliti "Capital One", rstar (clsi (fun c => isSpaceChar c || c == '¬' || c == 'Æ')), rliti "Quicksilver"]), rstar (clsi (fun c => isSpaceChar c || c == '¬' || c == 'Æ')), ropt ((rliti "Credit ")), rliti "Card"],
  -- (Capital One[\s¬Æ]*SavorOne)[\s¬Æ]*(?:Credit )?Card
  rcat [RE.grp 1 (rcat [rliti "Capital One", rstar (clsi (fun c => isSpaceChar c || c == '¬' || c == 'Æ')), rliti "SavorOne"]), rstar (clsi (fun c => isSpaceChar c || c == '¬' || c == 'Æ')), ropt ((rliti "Credit ")), rliti "Card"],
  -- (Capital One[\s¬Æ]*Spark)[\s¬Æ]*(?:Credit )?Card
  rcat [RE.grp 1 (rcat [rliti "Capital One", rstar (clsi (fun c => isSpaceChar c || c == '¬' || c == 'Æ')), rliti "Spark"]), rstar (clsi (fun c => isSpaceChar c || c == '¬' || c == 'Æ')), ropt ((rliti "Credit ")), rliti "Card"],
  -- (Citi[\s¬Æ]*(?:Double Cash|Premier|Custom Cash|Diamond Preferred)?)[\s¬Æ]*(?:Credit )?Card
  rcat [RE.grp 1 (rcat [rliti "Citi", rstar (clsi (fun c => isSpaceChar c || c == '¬' || c == 'Æ')), ropt ((ralts [rliti "Double Cash", rliti "Premier", rliti "Custom Cash", rliti "Diamond Preferred"]))]), rstar (clsi (fun c => isSpaceChar c || c == '¬' || c == 'Æ')), ropt ((rliti "Credit ")), rliti "Card"],
  -- (Discover[\s¬Æ]*it Miles)[\s¬Æ]*(?:Credit )?Card
  rcat [RE.grp 1 (rcat [rliti "Discover", rstar (clsi (fun c => isSpaceChar c || c == '¬' || c == 'Æ')), rliti "it Miles"]), rstar (clsi (fun c => isSpaceChar c || c == '¬' || c == 'Æ')), ropt ((rliti "Credit ")), rliti "Card"],
  -- (Discover[\s¬Æ]*it Chrome)[\s¬Æ]*(?:Credit )?Card
  rcat [RE.grp 1 (rcat [rliti "Discover", rstar (clsi (fun c => isSpaceChar c || c == '¬' || c == 'Æ')), rliti "it Chrome"]), rstar (clsi (fun c => isSpaceChar c || c == '¬' || c == 'Æ')), ropt ((rliti "Credit ")), rliti "Card"],
  -- (Discover[\s¬Æ]*it)[\s¬Æ]*(?:Credit )?Card
  rcat [RE.grp 1 (rcat [rliti "Discover", rstar (clsi (fun c => isSpaceChar c || c == '¬' || c == 'Æ')), rliti "it"]), rstar (clsi (fun c => isSpaceChar c || c == '¬' || c == 'Æ')), ropt ((rliti "Credit ")), rliti "Card"],
  -- (Bank of America[\s¬Æ]*Premium Rewards)[\s¬Æ]*(?:Credit )?Card
  rcat [RE.grp 1 (rcat [rliti "Bank of America", rstar (clsi (fun c => isSpaceChar c || c == '¬' || c == 'Æ')), rliti "Premium Rewards"]), rstar (clsi (fun c => isSpaceChar c || c == '¬' || c == 'Æ')), ropt ((rliti "Credit ")), rliti "Card"],
  -- (Bank of America[\s¬Æ]*Cash Rewards)[\s¬Æ]*(?:Credit )?Card
  rcat [RE.grp 1 (rcat [rliti "Bank of America", rstar (clsi (fun c => isSpaceChar c || c == '¬' || c == 'Æ')), rliti "Cash Rewards"]), rstar (clsi (fun c => isSpaceChar c || c == '¬' || c == 'Æ')), ropt ((rliti "Credit ")), rliti "Card"],
  -- (Bank of America[\s¬Æ]*Travel Rewards)[\s¬Æ]*(?:Credit )?Card
  rcat [RE.grp 1 (rcat [rliti "Bank of America", rstar (clsi (fun c => isSpaceChar c || c == '¬' || c == 'Æ')), rliti "Travel Rewards"]), rstar (clsi (fun c => isSpaceChar c || c == '¬' || c == 'Æ')), ropt ((rliti "Credit ")), rliti "Card"],
  -- (Bank of America[\s¬Æ]*Customized Cash)[\s¬Æ]*(?:Credit )?Card
  rcat [RE.grp 1 (rcat [rliti "Bank of America", rstar (clsi (fun c => isSpaceChar c || c == '¬' || c == 'Æ')), rliti "Customized Cash"]), rstar (clsi (fun c => isSpaceChar c || c == '¬' || c == 'Æ')), ropt ((rliti "Credit ")), rliti "Card"],
  -- (Wells Fargo[\s¬Æ]*(?:Active Cash|Autograph|Reflect)?)[\s¬Æ]*(?:Credit )?Card
  rcat [RE.grp 1 (rcat [rliti "Wells Fargo", rstar (clsi (fun c => isSpaceChar c || c == '¬' || c == 'Æ')), ropt ((ralts [rliti "Active Cash", rliti "Autograph", rliti "Reflect"]))]), rstar (clsi (fun c => isSpaceChar c || c == '¬' || c == 'Æ')), ropt ((rliti "Credit ")), rliti "Card"],
  -- ((?:Visa|Mastercard|Discover)[\s¬Æ]*(?:Signature|Platinum|Gold|Rewards)?)[\s¬Æ]*(?:Credit )?Card
  rcat [RE.grp 1 (rcat [(ralts [rliti "Visa", rliti "Mastercard", rliti "Discover"]), rstar (clsi (fun c => isSpaceChar c || c == '¬' || c == 'Æ')), ropt ((ralts [rliti "Signature", rliti "Platinum", rliti "Gold", rliti "Rewards"]))]), rstar (clsi (fun c => isSpaceChar c || c == '¬' || c == 'Æ')), ropt ((rliti "Credit ")), rliti "Card"]
]

-- analyzer.py line 123: subject fallback pattern (IGNORECASE)
-- Your\s+(.+?)\s+(?:Benefits|Is|Has|Are)
def ccSubjectRE : RE :=
  rcat [rliti "Your", rplus (schar), RE.grp 1 (rplusl (rany)), rplus (schar), (ralts [rliti "Benefits", rliti "Is", rliti "Has", rliti "Are"])]

/-- analyzer.py lines 131-273: issuers lexicon, in dict insertion order (the
duplicate key of the literal keeps its first position, as in a Python dict). -/
def issuers : List (String × String) := [
  ("american express", "American Express Card"),
  ("amex", "American Express Card"),
  ("visa signature", "Visa Signature Card"),
  ("visa infinite", "Visa Infinite Card"),
  ("mastercard world", "Mastercard World Card"),
  ("mastercard world elite", "Mastercard World Elite Card"),
  ("discover it", "Discover it Card"),
  ("chase sapphire reserve", "Chase Sapphire Reserve"),
  ("chase sapphire preferred", "Chase Sapphire Preferred"),
  ("chase sapphire", "Chase Sapphire Card"),
  ("chase freedom unlimited", "Chase Freedom Unlimited"),
  ("chase freedom flex", "Chase Freedom Flex"),
  ("chase freedom", "Chase Freedom Card"),
  ("chase slate", "Chase Slate Card"),
  ("chase ink business", "Chase Ink Business Card"),
  ("chase ink", "Chase Ink Card"),
  ("amazon prime rewards visa", "Amazon Prime Rewards Visa"),
  ("amazon rewards visa", "Amazon Rewards Visa"),
  ("united club infinite", "United Club Infinite Card"),
  ("united explorer", "United Explorer Card"),
  ("southwest rapid rewards", "Southwest Rapid Rewards Card"),
  ("southwest priority", "Southwest Priority Card"),
  ("marriott bonvoy boundless", "Marriott Bonvoy Boundless"),
  ("marriott bonvoy bold", "Marriott Bonvoy Bold"),
  ("ihg rewards", "IHG Rewards Card"),
  ("world of hyatt", "World of Hyatt Card"),
  ("aeroplan", "Aeroplan Card"),
  ("disney visa", "Disney Visa Card"),
  ("starbucks rewards visa", "Starbucks Rewards Visa"),
  ("platinum card", "American Express Platinum Card"),
  ("amex platinum", "American Express Platinum Card"),
  ("amex gold", "American Express Gold Card"),
  ("gold card", "American Express Gold Card"),
  ("amex green", "American Express Green Card"),
  ("blue cash preferred", "Blue Cash Preferred Card"),
  ("blue cash everyday", "Blue Cash Everyday Card"),
  ("amex everyday", "Amex EveryDay Card"),
  ("hilton honors amex", "Hilton Honors American Express"),
  ("hilton honors aspire", "Hilton Honors Aspire Card"),
  ("hilton honors surpass", "Hilton Honors Surpass Card"),
  ("marriott bonvoy amex", "Marriott Bonvoy American Express"),
  ("delta skymiles gold", "Delta SkyMiles Gold Card"),
  ("delta skymiles platinum", "Delta SkyMiles Platinum Card"),
  ("delta skymiles reserve", "Delta SkyMiles Reserve Card"),
  ("delta skymiles blue", "Delta SkyMiles Blue Card"),
  ("delta skymiles", "Delta SkyMiles Card"),
  ("amex business gold", "Amex Business Gold Card"),
  ("amex business platinum", "Amex Business Platinum Card"),
  ("capital one venture x", "Capital One Venture X"),
  ("capital one venture", "Capital One Venture Card"),
  ("capital one ventureone", "Capital One VentureOne"),
  ("capital one quicksilver", "Capital One Quicksilver"),
  ("capital one savor", "Capital One Savor"),
  ("capital one savorone", "Capital One SavorOne"),
  ("capital one spark", "Capital One Spark Business"),
  ("capital one platinum", "Capital One Platinum Card"),
  ("capital one", "Capital One Card"),
  ("citi double cash", "Citi Double Cash Card"),
  ("citi premier", "Citi Premier Card"),
  ("citi custom cash", "Citi Custom Cash Card"),
  ("citi diamond preferred", "Citi Diamond Preferred"),
  ("citi rewards+", "Citi Rewards+ Card"),
  ("citi simplicity", "Citi Simplicity Card"),
  ("costco anywhere visa", "Costco Anywhere Visa"),
  ("at&t access card", "AT&T Access Card"),
  ("aadvantage platinum", "AAdvantage Platinum Card"),
  ("aadvantage executive", "AAdvantage Executive Card"),
  ("citi", "Citi Card"),
  ("bank of america premium rewards", "Bank of America Premium Rewards"),
  ("bank of america cash rewards", "Bank of America Cash Rewards"),
  ("bank of america travel rewards", "Bank of America Travel Rewards"),
  ("bank of america customized cash", "Bank of America Customized Cash"),
  ("alaska airlines visa", "Alaska Airlines Visa"),
  ("bank of america", "Bank of America Card"),
  ("wells fargo active cash", "Wells Fargo Active Cash"),
  ("wells fargo autograph", "Wells Fargo Autograph"),
  ("wells fargo reflect", "Wells Fargo Reflect"),
  ("wells fargo platinum", "Wells Fargo Platinum Card"),
  ("bilt rewards", "Bilt Rewards Card"),
  ("wells fargo", "Wells Fargo Card"),
  ("us bank altitude reserve", "U.S. Bank Altitude Reserve"),
  ("us bank altitude connect", "U.S. Bank Altitude Connect"),
  ("us bank altitude go", "U.S. Bank Altitude Go"),
  ("us bank cash+", "U.S. Bank Cash+ Card"),
  ("us bank", "U.S. Bank Card"),
  ("discover it chrome", "Discover it Chrome"),
  ("discover it miles", "Discover it Miles"),
  ("discover it student", "Discover it Student"),
  ("discover it secured", "Discover it Secured"),
  ("discover", "Discover Card"),
  ("amazon store card", "Amazon Store Card"),
  ("walmart rewards card", "Walmart Rewards Card"),
  ("target redcard", "Target REDcard"),
  ("sam's club mastercard", "Sam's Club Mastercard"),
  ("lowes advantage", "Lowe's Advantage Card"),
  ("home depot credit", "Home Depot Credit Card"),
  ("best buy credit", "Best Buy Credit Card"),
  ("apple card", "Apple Card"),
  ("paypal cashback", "PayPal Cashback Mastercard"),
  ("venmo credit card", "Venmo Credit Card"),
  ("navy federal", "Navy Federal Card"),
  ("penfed", "PenFed Card"),
  ("usaa", "USAA Card"),
  ("alliant", "Alliant Card"),
  ("sofi credit card", "SoFi Credit Card"),
  ("upgrade card", "Upgrade Card"),
  ("petal card", "Petal Card"),
  ("chime credit builder", "Chime Credit Builder"),
  ("barclays arrival", "Barclays Arrival Card"),
  ("jetblue card", "JetBlue Card"),
  ("jetblue plus", "JetBlue Plus Card"),
  ("wyndham rewards", "Wyndham Rewards Card"),
  ("frontier airlines", "Frontier Airlines Card"),
  ("hawaiian airlines", "Hawaiian Airlines Card"),
  ("barclays", "Barclays Card")]

/-- analyzer.py lines 309-327: membership-name body patterns (IGNORECASE). -/
def mem_body_patterns : List RE := [
  -- (?:your|the)\s+([A-Z][A-Za-z0-9\s\'\+¬Æ\.&-]{3,50}?)\s+(?:Membership|membership)\s+is\s+(?:now\s+)?active
  rcat [(ralts [rliti "your", rliti "the"]), rplus (schar), RE.grp 1 (rcat [clsi (fun c => ('A' ≤ c && c ≤ 'Z')), rrangeL 3 50 (clsi (fun c => ('A' ≤ c && c ≤ 'Z') || ('a' ≤ c && c ≤ 'z') || ('0' ≤ c && c ≤ '9') || isSpaceChar c || c == apos || c == '+' || c == '¬' || c == 'Æ' || c == '.' || c == '&' || c == '-'))]), rplus (schar), (ralts [rliti "Membership", rliti "membership"]), rplus (schar), rliti "is", rplus (schar), ropt ((rcat [rliti "now", rplus (schar)])), rliti "active"],
  -- Your\s+([A-Z][A-Za-z][A-Za-z0-9\s\'\+¬Æ\.&-]{3,50}?)\s+(?:membership|rewards?|program)\s+(?:is|keeps|unlocks|provides)
  rcat [rliti "Your", rplus (schar), RE.grp 1 (rcat [clsi (fun c => ('A' ≤ c && c ≤ 'Z')), clsi (fun c => ('A' ≤ c && c ≤ 'Z') || ('a' ≤ c && c ≤ 'z')), rrangeL 3 50 (clsi (fun c => ('A' ≤ c && c ≤ 'Z') || ('a' ≤ c && c ≤ 'z') || ('0' ≤ c && c ≤ '9') || isSpaceChar c || c == apos || c == '+' || c == '¬' || c == 'Æ' || c == '.' || c == '&' || c == '-'))]), rplus (schar), (ralts [rliti "membership", rcat [rliti "reward", ropt (rchari 's')], rliti "program"]), rplus (schar), (ralts [rliti "is", rliti "keeps", rliti "unlocks", rliti "provides"])],
  -- Program:\s+([A-Z][A-Za-z0-9\s\'\+¬Æ\.&-]{3,50}?)(?:\s*\n|\s*Tier:)
  rcat [rliti "Program:", rplus (schar), RE.grp 1 (rcat [clsi (fun c => ('A' ≤ c && c ≤ 'Z')), rrangeL 3 50 (clsi (fun c => ('A' ≤ c && c ≤ 'Z') || ('a' ≤ c && c ≤ 'z') || ('0' ≤ c && c ≤ '9') || isSpaceChar c || c == apos || c == '+' || c == '¬' || c == 'Æ' || c == '.' || c == '&' || c == '-'))]), (ralts [rcat [rstar (schar), rchari nl], rcat [rstar (schar), rliti "Tier:"]])],
  -- Membership Plan:\s+([A-Z][A-Za-z0-9\s\'\+¬Æ\.&-]{3,50}?)\s+(?:\(|$)
  rcat [rliti "Membership Plan:", rplus (schar), RE.grp 1 (rcat [clsi (fun c => ('A' ≤ c && c ≤ 'Z')), rrangeL 3 50 (clsi (fun c => ('A' ≤ c && c ≤ 'Z') || ('a' ≤ c && c ≤ 'z') || ('0' ≤ c && c ≤ '9') || isSpaceChar c || c == apos || c == '+' || c == '¬' || c == 'Æ' || c == '.' || c == '&' || c == '-'))]), rplus (schar), (ralts [rliti "(", RE.eos])],
  -- enrolled in\s+([A-Z][A-Za-z0-9\s\'\+¬Æ\.&-]{3,50}?)(?:\s*\.\s*|\s*$)
  rcat [rliti "enrolled in", rplus (schar), RE.grp 1 (rcat [clsi (fun c => ('A' ≤ c && c ≤ 'Z')), rrangeL 3 50 (clsi (fun c => ('A' ≤ c && c ≤ 'Z') || ('a' ≤ c && c ≤ 'z') || ('0' ≤ c && c ≤ '9') || isSpaceChar c || c == apos || c == '+' || c == '¬' || c == 'Æ' || c == '.' || c == '&' || c == '-'))]), (ralts [rcat [rstar (schar), rliti ".", rstar (schar)], rcat [rstar (schar), RE.eos]])],
  -- Thank you for joining\s+([A-Z][A-Za-z0-9\s\'\+¬Æ\.&-]{3,50}?)(?:\s*\.\s*|\s*$)
  rcat [rliti "Thank you for joining", rplus (schar), RE.grp 1 (rcat [clsi (fun c => ('A' ≤ c && c ≤ 'Z')), rrangeL 3 50 (clsi (fun c => ('A' ≤ c && c ≤ 'Z') || ('a' ≤ c && c ≤ 'z') || ('0' ≤ c && c ≤ '9') || isSpaceChar c || c == apos || c == '+' || c == '¬' || c == 'Æ' || c == '.' || c == '&' || c == '-'))]), (ralts [rcat [rstar (schar), rliti ".", rstar (schar)], rcat [rstar (schar), RE.eos]])]
]

/-- analyzer.py lines 338-340: generic membership names rejected in step 1. -/
def invalid_names : List String := ["membership", "membership details", "your membership", "active membership", "tier", "gold tier", "platinum tier", "exclusive to us", "us members", "us shoppers"]

/-- analyzer.py lines 356-366: canonicalization of step-1 extracted names. -/
def known_membership_keys : List (String × String) := [
  ("ultamate rewards", "Ulta Beauty Ultamate Rewards"),
  ("ulta ultamate rewards", "Ulta Beauty Ultamate Rewards"),
  ("ulta rewards", "Ulta Beauty Ultamate Rewards"),
  ("sephora beauty insider", "Sephora Beauty Insider"),
  ("beauty insider", "Sephora Beauty Insider"),
  ("kroger boost+", "Kroger Boost+"),
  ("kroger boost plus", "Kroger Boost+"),
  ("bj's club+", "BJ's Club+"),
  ("bjs club+", "BJ's Club+")]

/-- analyzer.py lines 377-574: known memberships lexicon, in dict insertion order. -/
def known_memberships : List (String × String) := [
  ("bank of america preferred rewards platinum", "Bank of America Preferred Rewards Platinum"),
  ("bank of america preferred rewards gold", "Bank of America Preferred Rewards Gold"),
  ("bank of america preferred rewards", "Bank of America Preferred Rewards"),
  ("preferred rewards gold", "Bank of America Preferred Rewards Gold"),
  ("preferred rewards platinum", "Bank of America Preferred Rewards Platinum"),
  ("chase private client", "Chase Private Client"),
  ("chase sapphire banking", "Chase Sapphire Banking"),
  ("wells fargo premier", "Wells Fargo Premier"),
  ("citi priority", "Citi Priority"),
  ("capital one 360", "Capital One 360"),
  ("costco gold star", "Costco Gold Star Membership"),
  ("gold star membership", "Costco Gold Star Membership"),
  ("costco executive", "Costco Executive Membership"),
  ("executive membership", "Costco Executive Membership"),
  ("costco business", "Costco Business Membership"),
  ("costco", "Costco Membership"),
  ("sam's club plus", "Sam's Club Plus"),
  ("sams club plus", "Sam's Club Plus"),
  ("sam's club", "Sam's Club Membership"),
  ("sams club", "Sam's Club Membership"),
  ("bj's inner circle", "BJ's Inner Circle Membership"),
  ("bj's perks rewards", "BJ's Perks Rewards"),
  ("bj's club+", "BJ's Club+"),
  ("bj's club plus", "BJ's Club+"),
  ("bjs club+", "BJ's Club+"),
  ("bj's wholesale", "BJ's Club+"),
  ("bjs wholesale", "BJ's Club+"),
  ("bj's", "BJ's Club+"),
  ("walmart+", "Walmart+"),
  ("walmart plus", "Walmart+"),
  ("amazon prime", "Amazon Prime"),
  ("prime membership", "Amazon Prime"),
  ("target circle 360", "Target Circle 360"),
  ("target circle", "Target Circle"),
  ("best buy totaltech", "Best Buy Totaltech"),
  ("best buy plus", "Best Buy Plus"),
  ("cvs carepass", "CVS CarePass"),
  ("walgreens mywalgreens", "myWalgreens+"),
  ("rite aid wellness+", "Rite Aid Wellness+"),
  ("petco vital care", "Petco Vital Care"),
  ("petsmart treats", "PetSmart Treats Rewards"),
  ("chewy autoship", "Chewy Autoship"),
  ("sephora beauty insider", "Sephora Beauty Insider"),
  ("ultamate rewards", "Ulta Beauty Ultamate Rewards"),
  ("ulta ultamate rewards", "Ulta Beauty Ultamate Rewards"),
  ("ulta rewards", "Ulta Beauty Ultamate Rewards"),
  ("ulta beauty", "Ulta Beauty Ultamate Rewards"),
  ("nordstrom nordy club", "Nordstrom Nordy Club"),
  ("kohl's rewards", "Kohl's Rewards"),
  ("macy's star rewards", "Macy's Star Rewards"),
  ("rei co-op", "REI Co-op Membership"),
  ("dick's scorecard", "Dick's Scorecard"),
  ("nike membership", "Nike Membership"),
  ("adidas creators club", "Adidas Creators Club"),
  ("lululemon membership", "Lululemon Membership"),
  ("j.crew passport", "J.Crew Passport"),
  ("jcrew passport", "J.Crew Passport"),
  ("kroger boost+", "Kroger Boost+"),
  ("kroger boost plus", "Kroger Boost+"),
  ("kroger boost", "Kroger Boost+"),
  ("instacart+", "Instacart+"),
  ("instacart express", "Instacart Express"),
  ("shipt", "Shipt Membership"),
  ("freshly", "Freshly Subscription"),
  ("hello fresh", "HelloFresh"),
  ("blue apron", "Blue Apron"),
  ("home chef", "Home Chef"),
  ("factor meals", "Factor Meals"),
  ("green chef", "Green Chef"),
  ("panera unlimited sip club", "Panera Unlimited Sip Club"),
  ("panera bread", "Panera Bread Rewards"),
  ("starbucks rewards", "Starbucks Rewards"),
  ("dunkin rewards", "Dunkin' Rewards"),
  ("chick-fil-a one", "Chick-fil-A One"),
  ("chipotle rewards", "Chipotle Rewards"),
  ("taco bell rewards", "Taco Bell Rewards"),
  ("mcdonald's rewards", "McDonald's Rewards"),
  ("wendy's rewards", "Wendy's Rewards"),
  ("dashpass", "DoorDash DashPass"),
  ("uber one", "Uber One"),
  ("grubhub+", "Grubhub+"),
  ("netflix premium", "Netflix Premium"),
  ("netflix standard", "Netflix Standard"),
  ("netflix basic", "Netflix Basic"),
  ("netflix", "Netflix"),
  ("disney+", "Disney+"),
  ("disney plus", "Disney+"),
  ("hulu", "Hulu"),
  ("hbo max", "HBO Max"),
  ("max", "Max (HBO)"),
  ("peacock premium", "Peacock Premium"),
  ("peacock", "Peacock"),
  ("paramount+", "Paramount+"),
  ("paramount plus", "Paramount+"),
  ("apple tv+", "Apple TV+"),
  ("discovery+", "Discovery+"),
  ("espn+", "ESPN+"),
  ("youtube premium", "YouTube Premium"),
  ("youtube tv", "YouTube TV"),
  ("sling tv", "Sling TV"),
  ("fubo tv", "FuboTV"),
  ("philo", "Philo"),
  ("crunchyroll", "Crunchyroll"),
  ("funimation", "Funimation"),
  ("spotify premium", "Spotify Premium"),
  ("spotify", "Spotify"),
  ("apple music", "Apple Music"),
  ("amazon music unlimited", "Amazon Music Unlimited"),
  ("tidal", "TIDAL"),
  ("pandora plus", "Pandora Plus"),
  ("pandora premium", "Pandora Premium"),
  ("sirius xm", "SiriusXM"),
  ("siriusxm", "SiriusXM"),
  ("audible", "Audible"),
  ("audible premium", "Audible Premium Plus"),
  ("kindle unlimited", "Kindle Unlimited"),
  ("scribd", "Scribd"),
  ("kobo plus", "Kobo Plus"),
  ("planet fitness", "Planet Fitness"),
  ("la fitness", "LA Fitness"),
  ("24 hour fitness", "24 Hour Fitness"),
  ("equinox", "Equinox"),
  ("orangetheory", "Orangetheory Fitness"),
  ("crossfit", "CrossFit"),
  ("peloton", "Peloton"),
  ("apple fitness+", "Apple Fitness+"),
  ("fitbit premium", "Fitbit Premium"),
  ("noom", "Noom"),
  ("weight watchers", "WW (Weight Watchers)"),
  ("xbox game pass", "Xbox Game Pass"),
  ("xbox live gold", "Xbox Live Gold"),
  ("playstation plus", "PlayStation Plus"),
  ("ps plus", "PlayStation Plus"),
  ("nintendo switch online", "Nintendo Switch Online"),
  ("ea play", "EA Play"),
  ("ubisoft+", "Ubisoft+"),
  ("geforce now", "GeForce NOW"),
  ("delta skymiles", "Delta SkyMiles"),
  ("american aadvantage", "American AAdvantage"),
  ("united mileageplus", "United MileagePlus"),
  ("southwest rapid rewards", "Southwest Rapid Rewards"),
  ("jetblue trueblue", "JetBlue TrueBlue"),
  ("alaska mileage plan", "Alaska Mileage Plan"),
  ("marriott bonvoy", "Marriott Bonvoy"),
  ("hilton honors", "Hilton Honors"),
  ("ihg one rewards", "IHG One Rewards"),
  ("world of hyatt", "World of Hyatt"),
  ("wyndham rewards", "Wyndham Rewards"),
  ("choice privileges", "Choice Privileges"),
  ("hertz gold plus", "Hertz Gold Plus Rewards"),
  ("national emerald club", "National Emerald Club"),
  ("enterprise plus", "Enterprise Plus"),
  ("avis preferred", "Avis Preferred"),
  ("tsa precheck", "TSA PreCheck"),
  ("global entry", "Global Entry"),
  ("clear", "CLEAR"),
  ("priority pass", "Priority Pass"),
  ("microsoft 365", "Microsoft 365"),
  ("office 365", "Microsoft 365"),
  ("adobe creative cloud", "Adobe Creative Cloud"),
  ("google one", "Google One"),
  ("icloud+", "iCloud+"),
  ("dropbox plus", "Dropbox Plus"),
  ("evernote", "Evernote"),
  ("1password", "1Password"),
  ("lastpass", "LastPass"),
  ("nordvpn", "NordVPN"),
  ("expressvpn", "ExpressVPN"),
  ("aaa", "AAA Membership"),
  ("onstar", "OnStar")]

-- analyzer.py line 584: subject tier pattern (IGNORECASE)
-- \b([\w\s\'\+]+)\s+(club\+|boost\+|plus|premium|pro|rewards?|insider|member|circle|perks?):\s
def subjectTierRE : RE :=
  rcat [RE.bnd, RE.grp 1 (rplus (clsi (fun c => isWordChar c || isSpaceChar c || c == apos || c == '+'))), rplus (schar), RE.grp 2 (ralts [rliti "club+", rliti "boost+", rliti "plus", rliti "premium", rliti "pro", rcat [rliti "reward", ropt (rchari 's')], rliti "insider", rliti "member", rliti "circle", rcat [rliti "perk", ropt (rchari 's')]]), rliti ":", schar]

/-- analyzer.py lines 619-680: brand_map, in dict insertion order. -/
def brand_map : List (String × String) := [
  ("amazon", "Amazon"),
  ("flipkart", "Flipkart"),
  ("myntra", "Myntra"),
  ("ajio", "AJIO"),
  ("meesho", "Meesho"),
  ("snapdeal", "Snapdeal"),
  ("ebay", "eBay"),
  ("walmart", "Walmart"),
  ("target", "Target"),
  ("bestbuy", "Best Buy"),
  ("costco", "Costco"),
  ("swiggy", "Swiggy"),
  ("zomato", "Zomato"),
  ("ubereats", "Uber Eats"),
  ("doordash", "DoorDash"),
  ("dominos", "Domino's"),
  ("pizzahut", "Pizza Hut"),
  ("starbucks", "Starbucks"),
  ("mcdonalds", "McDonald's"),
  ("netflix", "Netflix"),
  ("spotify", "Spotify"),
  ("hotstar", "Hotstar"),
  ("disney", "Disney+"),
  ("paytm", "Paytm"),
  ("phonepe", "PhonePe"),
  ("gpay", "Google Pay"),
  ("paypal", "PayPal"),
  ("nike", "Nike"),
  ("adidas", "Adidas"),
  ("puma", "Puma"),
  ("zara", "Zara"),
  ("hm.com", "H&M"),
  ("h&m", "H&M"),
  ("uniqlo", "Uniqlo"),
  ("shein", "SHEIN"),
  ("nykaa", "Nykaa"),
  ("bigbasket", "BigBasket"),
  ("blinkit", "Blinkit"),
  ("zepto", "Zepto"),
  ("makemytrip", "MakeMyTrip"),
  ("booking", "Booking.com"),
  ("expedia", "Expedia"),
  ("airbnb", "Airbnb"),
  ("uber", "Uber"),
  ("ola", "Ola"),
  ("apple", "Apple"),
  ("samsung", "Samsung"),
  ("oneplus", "OnePlus"),
  ("ikea", "IKEA"),
  ("sephora", "Sephora"),
  ("nordstrom", "Nordstrom"),
  ("macys", "Macy's"),
  ("jcpenney", "JCPenney"),
  ("kohls", "Kohl's"),
  ("gap", "GAP"),
  ("oldnavy", "Old Navy"),
  ("lenskart", "Lenskart"),
  ("croma", "Croma"),
  ("reliance", "Reliance"),
  ("tata", "Tata")]

/-- analyzer.py lines 692-728: signature patterns (IGNORECASE and MULTILINE). -/
def signature_patterns : List RE := [
  -- [A-Za-z\s]+[!,]\s*(?:the\s+)?([A-Z][A-Za-z0-9\s&\'.]+?)\s+team\s
  rcat [rplus (clsi (fun c => ('A' ≤ c && c ≤ 'Z') || ('a' ≤ c && c ≤ 'z') || isSpaceChar c)), clsi (fun c => c == '!' || c == ','), rstar (schar), ropt ((rcat [rliti "the", rplus (schar)])), RE.grp 1 (rcat [clsi (fun c => ('A' ≤ c && c ≤ 'Z')), rplusl (clsi (fun c => ('A' ≤ c && c ≤ 'Z') || ('a' ≤ c && c ≤ 'z') || ('0' ≤ c && c ≤ '9') || isSpaceChar c || c == '&' || c == apos || c == '.'))]), rplus (schar), rliti "team", schar],
  -- [A-Za-z\s]+[!,]\s*\n+\s*(?:the\s+)?([A-Z][A-Za-z0-9\s&\'.]+?)(?:\s+team)?\s*(?:\n|$)
  rcat [rplus (clsi (fun c => ('A' ≤ c && c ≤ 'Z') || ('a' ≤ c && c ≤ 'z') || isSpaceChar c)), clsi (fun c => c == '!' || c == ','), rstar (schar), rplus (rchari nl), rstar (schar), ropt ((rcat [rliti "the", rplus (schar)])), RE.grp 1 (rcat [clsi (fun c => ('A' ≤ c && c ≤ 'Z')), rplusl (clsi (fun c => ('A' ≤ c && c ≤ 'Z') || ('a' ≤ c && c ≤ 'z') || ('0' ≤ c && c ≤ '9') || isSpaceChar c || c == '&' || c == apos || c == '.'))]), ropt ((rcat [rplus (schar), rliti "team"])), rstar (schar), (ralts [rchari nl, RE.eol])],
  -- (?:customer\s+)?(?:support|service|care)\s+team\s*\n+\s*([A-Z][A-Za-z0-9\s\&\'.]+?)\s*(?:\n|$)
  rcat [ropt ((rcat [rliti "customer", rplus (schar)])), (ralts [rliti "support", rliti "service", rliti "care"]), rplus (schar), rliti "team", rstar (schar), rplus (rchari nl), rstar (schar), RE.grp 1 (rcat [clsi (fun c => ('A' ≤ c && c ≤ 'Z')), rplusl (clsi (fun c => ('A' ≤ c && c ≤ 'Z') || ('a' ≤ c && c ≤ 'z') || ('0' ≤ c && c ≤ '9') || isSpaceChar c || c == '&' || c == apos || c == '.'))]), rstar (schar), (ralts [rchari nl, RE.eol])],
  -- (?:customer\s+)?(?:support|service|care)\s+team[,\s]+([A-Z][A-Za-z0-9\s\&\'.]+?)(?:\s*$|\s*\n)
  rcat [ropt ((rcat [rliti "customer", rplus (schar)])), (ralts [rliti "support", rliti "service", rliti "care"]), rplus (schar), rliti "team", rplus (clsi (fun c => c == ',' || isSpaceChar c)), RE.grp 1 (rcat [clsi (fun c => ('A' ≤ c && c ≤ 'Z')), rplusl (clsi (fun c => ('A' ≤ c && c ≤ 'Z') || ('a' ≤ c && c ≤ 'z') || ('0' ≤ c && c ≤ '9') || isSpaceChar c || c == '&' || c == apos || c == '.'))]), (ralts [rcat [rstar (schar), RE.eol], rcat [rstar (schar), rchari nl]])],
  -- (?:warm\s+)?regards[!,]*\s*\n+\s*(?:the\s+)?([A-Z][A-Za-z0-9\s\&\'.]+?)(?:\s+team)?\s*(?:\n|$)
  rcat [ropt ((rcat [rliti "warm", rplus (schar)])), rliti "regards", rstar (clsi (fun c => c == '!' || c == ',')), rstar (schar), rplus (rchari nl), rstar (schar), ropt ((rcat [rliti "the", rplus (schar)])), RE.grp 1 (rcat [clsi (fun c => ('A' ≤ c && c ≤ 'Z')), rplusl (clsi (fun c => ('A' ≤ c && c ≤ 'Z') || ('a' ≤ c && c ≤ 'z') || ('0' ≤ c && c ≤ '9') || isSpaceChar c || c == '&' || c == apos || c == '.'))]), ropt ((rcat [rplus (schar), rliti "team"])), rstar (schar), (ralts [rchari nl, RE.eol])],
  -- (?:warm\s+)?regards[!,]*\s+([A-Z][A-Za-z0-9\s\&\'.]+?)(?:\s+team)?\s*(?:\n|$)
  rcat [ropt ((rcat [rliti "warm", rplus (schar)])), rliti "regards", rstar (clsi (fun c => c == '!' || c == ',')), rplus (schar), RE.grp 1 (rcat [clsi (fun c => ('A' ≤ c && c ≤ 'Z')), rplusl (clsi (fun c => ('A' ≤ c && c ≤ 'Z') || ('a' ≤ c && c ≤ 'z') || ('0' ≤ c && c ≤ '9') || isSpaceChar c || c == '&' || c == apos || c == '.'))]), ropt ((rcat [rplus (schar), rliti "team"])), rstar (schar), (ralts [rchari nl, RE.eol])],
  -- thanks[!,]*\s*\n+\s*(?:the\s+)?([A-Z][A-Za-z0-9\s\&\'.]+?)(?:\s+team)?\s*(?:\n|$)
  rcat [rliti "thanks", rstar (clsi (fun c => c == '!' || c == ',')), rstar (schar), rplus (rchari nl), rstar (schar), ropt ((rcat [rliti "the", rplus (schar)])), RE.grp 1 (rcat [clsi (fun c => ('A' ≤ c && c ≤ 'Z')), rplusl (clsi (fun c => ('A' ≤ c && c ≤ 'Z') || ('a' ≤ c && c ≤ 'z') || ('0' ≤ c && c ≤ '9') || isSpaceChar c || c == '&' || c == apos || c == '.'))]), ropt ((rcat [rplus (schar), rliti "team"])), rstar (schar), (ralts [rchari nl, RE.eol])],
  -- cheers[!,]*\s*\n+\s*(?:the\s+)?([A-Z][A-Za-z0-9\s\&\'.]+?)(?:\s+team)?\s*(?:\n|$)
  rcat [rliti "cheers", rstar (clsi (fun c => c == '!' || c == ',')), rstar (schar), rplus (rchari nl), rstar (schar), ropt ((rcat [rliti "the", rplus (schar)])), RE.grp 1 (rcat [clsi (fun c => ('A' ≤ c && c ≤ 'Z')), rplusl (clsi (fun c => ('A' ≤ c && c ≤ 'Z') || ('a' ≤ c && c ≤ 'z') || ('0' ≤ c && c ≤ '9') || isSpaceChar c || c == '&' || c == apos || c == '.'))]), ropt ((rcat [rplus (schar), rliti "team"])), rstar (schar), (ralts [rchari nl, RE.eol])],
  -- best[!,]*\s*\n+\s*(?:the\s+)?([A-Z][A-Za-z0-9\s\&\'.]+?)(?:\s+team)?\s*(?:\n|$)
  rcat [rliti "best", rstar (clsi (fun c => c == '!' || c == ',')), rstar (schar), rplus (rchari nl), rstar (schar), ropt ((rcat [rliti "the", rplus (schar)])), RE.grp 1 (rcat [clsi (fun c => ('A' ≤ c && c ≤ 'Z')), rplusl (clsi (fun c => ('A' ≤ c && c ≤ 'Z') || ('a' ≤ c && c ≤ 'z') || ('0' ≤ c && c ≤ '9') || isSpaceChar c || c == '&' || c == apos || c == '.'))]), ropt ((rcat [rplus (schar), rliti "team"])), rstar (schar), (ralts [rchari nl, RE.eol])],
  -- sincerely[!,]*\s*\n+\s*(?:the\s+)?([A-Z][A-Za-z0-9\s\&\'.]+?)(?:\s+team)?\s*(?:\n|$)
  rcat [rliti "sincerely", rstar (clsi (fun c => c == '!' || c == ',')), rstar (schar), rplus (rchari nl), rstar (schar), ropt ((rcat [rliti "the", rplus (schar)])), RE.grp 1 (rcat [clsi (fun c => ('A' ≤ c && c ≤ 'Z')), rplusl (clsi (fun c => ('A' ≤ c && c ≤ 'Z') || ('a' ≤ c && c ≤ 'z') || ('0' ≤ c && c ≤ '9') || isSpaceChar c || c == '&' || c == apos || c == '.'))]), ropt ((rcat [rplus (schar), rliti "team"])), rstar (schar), (ralts [rchari nl, RE.eol])],
  -- \bthe\s+([A-Z][A-Za-z0-9\s&\'.]+?)\s+team\b
  rcat [RE.bnd, rliti "the", rplus (schar), RE.grp 1 (rcat [clsi (fun c => ('A' ≤ c && c ≤ 'Z')), rplusl (clsi (fun c => ('A' ≤ c && c ≤ 'Z') || ('a' ≤ c && c ≤ 'z') || ('0' ≤ c && c ≤ '9') || isSpaceChar c || c == '&' || c == apos || c == '.'))]), rplus (schar), rliti "team", RE.bnd]
]

/-- analyzer.py line 737: generic captures skipped in signatures. -/
def skip_words : List String := ["customer", "support", "service", "team", "regards", "thanks", "best", "the", "shopping"]

/-- analyzer.py lines 805-809: gift-card number patterns (IGNORECASE). -/
def gc_card_patterns : List RE := [
  -- (?:Card|Gift\s*Card)\s*(?:Number|#|No\.?)?\s*:?\s*([0-9]{4}[\s-]?[0-9]{4}[\s-]?[0-9]{4}[\s-]?[0-9]{4})
  rcat [(ralts [rliti "Card", rcat [rliti "Gift", rstar (schar), rliti "Card"]]), rstar (schar), ropt ((ralts [rliti "Number", rliti "#", rcat [rliti "No", ropt (rchari '.')]])), rstar (schar), ropt (rchari ':'), rstar (schar), RE.grp 1 (rcat [rrep 4 (clsi (fun c => ('0' ≤ c && c ≤ '9'))), ropt (clsi (fun c => isSpaceChar c || c == '-')), rrep 4 (clsi (fun c => ('0' ≤ c && c ≤ '9'))), ropt (clsi (fun c => isSpaceChar c || c == '-')), rrep 4 (clsi (fun c => ('0' ≤ c && c ≤ '9'))), ropt (clsi (fun c => isSpaceChar c || c == '-')), rrep 4 (clsi (fun c => ('0' ≤ c && c ≤ '9')))])],
  -- (?:Card|Gift\s*Card)\s*(?:Number|#|No\.?)?\s*:?\s*([0-9]{10,19})
  rcat [(ralts [rliti "Card", rcat [rliti "Gift", rstar (schar), rliti "Card"]]), rstar (schar), ropt ((ralts [rliti "Number", rliti "#", rcat [rliti "No", ropt (rchari '.')]])), rstar (schar), ropt (rchari ':'), rstar (schar), RE.grp 1 (rrange 10 19 (clsi (fun c => ('0' ≤ c && c ≤ '9'))))],
  -- Card\s*Code\s*:?\s*([A-Z0-9]{10,20})
  rcat [rliti "Card", rstar (schar), rliti "Code", rstar (schar), ropt (rchari ':'), rstar (schar), RE.grp 1 (rrange 10 20 (clsi (fun c => ('A' ≤ c && c ≤ 'Z') || ('0' ≤ c && c ≤ '9'))))]
]

/-- analyzer.py lines 818-822: gift-card PIN patterns (IGNORECASE). -/
def gc_pin_patterns : List RE := [
  -- PIN\s*:?\s*(\d{4,8})
  rcat [rliti "PIN", rstar (schar), ropt (rchari ':'), rstar (schar), RE.grp 1 (rrange 4 8 (dchar))],
  -- Security\s*Code\s*:?\s*(\d{3,4})
  rcat [rliti "Security", rstar (schar), rliti "Code", rstar (schar), ropt (rchari ':'), rstar (schar), RE.grp 1 (rrange 3 4 (dchar))],
  -- Access\s*Code\s*:?\s*(\d{4,8})
  rcat [rliti "Access", rstar (schar), rliti "Code", rstar (schar), ropt (rchari ':'), rstar (schar), RE.grp 1 (rrange 4 8 (dchar))]
]

/-- analyzer.py lines 831-835: gift-card value patterns (IGNORECASE). -/
def gc_value_patterns : List RE := [
  -- (?:Card\s*)?(?:Value|Amount|Balance)\s*:?\s*\$?([0-9,]+(?:\.[0-9]{2})?)
  rcat [ropt ((rcat [rliti "Card", rstar (schar)])), (ralts [rliti "Value", rliti "Amount", rliti "Balance"]), rstar (schar), ropt (rchari ':'), rstar (schar), ropt (rchari '$'), RE.grp 1 (rcat [rplus (clsi (fun c => ('0' ≤ c && c ≤ '9') || c == ',')), ropt ((rcat [rliti ".", rrep 2 (clsi (fun c => ('0' ≤ c && c ≤ '9')))]))])],
  -- \$([0-9,]+(?:\.[0-9]{2})?)\s*(?:Gift\s*Card|Card)
  rcat [rliti "$", RE.grp 1 (rcat [rplus (clsi (fun c => ('0' ≤ c && c ≤ '9') || c == ',')), ropt ((rcat [rliti ".", rrep 2 (clsi (fun c => ('0' ≤ c && c ≤ '9')))]))]), rstar (schar), (ralts [rcat [rliti "Gift", rstar (schar), rliti "Card"], rliti "Card"])],
  -- (?:Worth|Valued\s*at)\s*\$?([0-9,]+(?:\.[0-9]{2})?)
  rcat [(ralts [rliti "Worth", rcat [rliti "Valued", rstar (schar), rliti "at"]]), rstar (schar), ropt (rchari '$'), RE.grp 1 (rcat [rplus (clsi (fun c => ('0' ≤ c && c ≤ '9') || c == ',')), ropt ((rcat [rliti ".", rrep 2 (clsi (fun c => ('0' ≤ c && c ≤ '9')))]))])]
]

-- analyzer.py line 844: redemption URL pattern (IGNORECASE)
-- (?:Redeem\s*(?:at|here)|Visit)\s*:?\s*(https?://[^\s<>\"]+)
def gcUrlRE : RE :=
  rcat [(ralts [rcat [rliti "Redeem", rstar (schar), (ralts [rliti "at", rliti "here"])], rliti "Visit"]), rstar (schar), ropt (rchari ':'), rstar (schar), RE.grp 1 (rcat [rliti "http", ropt (rchari 's'), rliti "://", rplus (RE.cls (fun c => !(isSpaceChar c || c == '<' || c == '>' || c == qch)))])]

/-! ## analyzer.py: extractor helpers -/

/-- Python `sorted` of lexicon keys by length, longest first, stable (equal
lengths keep dict insertion order). -/
def insertByLen (x : String × String) : List (String × String) → List (String × String)
  | [] => [x]
  | y :: ys => if y.1.length > x.1.length then y :: insertByLen x ys else x :: y :: ys

def sortByLenDesc (l : List (String × String)) : List (String × String) := l.foldr insertByLen []

def headUpper (s : String) : Bool :=
  match s.toList with
  | [] => false
  | c :: _ => c.isUpper

/-- analyzer.py lines 28-281: extract_credit_card_name. -/
def extract_credit_card_name (subject body : String) : String :=
  -- STEP 1 (lines 41-59): body patterns, each match filtered for length and
  -- generic words; a rejected match moves on to the next pattern.
  let step1 : Option String :=
    if body != "" then
      cc_body_patterns.findSome? (fun p =>
        match reSearch p body with
        | some st =>
          match capStr st 1 with
          | some g =>
            let card_name := collapseRegSym (collapseWs (pyStrip g))
            if card_name.length > 5 &&
               !(["your new", "new us", "us cardmember", "the new"].contains (pyLower card_name)) then
              some card_name
            else none
          | none => none
        | none => none)
    else none
  match step1 with
  | some r => r
  | none =>
    -- STEP 2 (lines 62-119): ordered issuer patterns over subject + body.
    let text := subject ++ " " ++ body
    let step2 : Option String :=
      cc_card_patterns.findSome? (fun p =>
        match reSearch p text with
        | some st =>
          match capStr st 1 with
          | some g =>
            let card_name := collapseRegSym (collapseWs (pyStrip g))
            if card_name.length > 5 then some card_name else none
          | none => none
        | none => none)
    match step2 with
    | some r => r
    | none =>
      -- lines 122-128: subject fallback.
      let step3 : Option String :=
        match reSearch ccSubjectRE subject with
        | some st =>
          match capStr st 1 with
          | some g =>
            let potential_card := pyStrip (pyReplace (pyStrip g) "¬Æ" "")
            if pyIn "card" (pyLower potential_card) then some potential_card else none
          | none => none
        | none => none
      match step3 with
      | some r => r
      | none =>
        -- lines 275-281: issuer lexicon, longest key first.
        let text_lower := pyLower text
        match (sortByLenDesc issuers).find? (fun kv => pyIn kv.1 text_lower) with
        | some kv => kv.2
        | none => "Credit Card"

/-- analyzer.py lines 284-596: extract_membership_name. -/
def extract_membership_name (subject body : String) : String :=
  let text := subject ++ " " ++ body
  let text_lower := pyReplace (pyReplace (pyLower text) "’" "'") "‘" "'"
  -- STEP 1 (lines 305-371): dynamic extraction from the body.
  let step1 : Option String :=
    if body != "" then
      mem_body_patterns.findSome? (fun p =>
        match reSearch p body with
        | some st =>
          match capStr st 1 with
          | some g =>
            let membership_name := pyStripChars ['.', ',', ';', ':'] (collapseWs (pyStrip g))
            if invalid_names.contains (pyLower membership_name) then none
            else
              let words := pySplitWs membership_name
              if words.length ≥ 2 || pyIn "+" membership_name || pyIn "'" membership_name then
                let cleaned := pyStrip (pyReplace membership_name "¬Æ" "")
                let membership_lower := pyLower cleaned
                match known_membership_keys.find? (fun kv => kv.1 == membership_lower) with
                | some kv => some kv.2
                | none => some cleaned
              else none
          | none => none
        | none => none)
    else none
  match step1 with
  | some r => r
  | none =>
    -- STEP 2 (lines 576-579): lexicon lookup, longest key first.
    match (sortByLenDesc known_memberships).find? (fun kv => pyIn kv.1 text_lower) with
    | some kv => kv.2
    | none =>
      -- STEP 3 (lines 584-592): subject tier pattern. The two trailing
      -- `replace` calls of the source replace a string with itself.
      match reSearch subjectTierRE subject with
      | some st =>
        match capStr st 1, capStr st 2 with
        | some g1, some g2 =>
          pyTitle (pyStrip g1) ++ " " ++ pyCapitalize (pyStrip g2)
        | _, _ => "Membership"
      | none =>
        -- STEP 4 (line 596)
        "Membership"

/-- analyzer.py lines 600-780: extract_company_name. -/
def extract_company_name (sender subject body : String) : String :=
  -- lines 613-616: forwarding-service exception.
  if pyIn "@innovinlabs.com" (pyLower sender) then "Unknown Store"
  else
    -- lines 682-746: signature patterns in the body.
    let step1 : Option String :=
      if body != "" then
        signature_patterns.findSome? (fun p =>
          match reSearch p body with
          | some st =>
            match capStr st 1 with
            | some g =>
              let company := collapseWs (pyStrip g)
              if !(skip_words.contains (pyLower company)) && company.length > 2 &&
                 company.length < 50 then
                if headUpper company then
                  match brand_map.find? (fun kv => pyIn kv.1 (pyLower company)) with
                  | some kv => some kv.2
                  | none => some company
                else none
              else none
            | none => none
          | none => none)
      else none
    match step1 with
    | some r => r
    | none =>
      -- lines 748-754: brand lexicon over sender + subject + body.
      let all_text := pyLower (sender ++ " " ++ subject ++ " " ++ body)
      match brand_map.find? (fun kv => pyIn kv.1 all_text) with
      | some kv => kv.2
      | none =>
        -- lines 756-769: sender display-name heuristic.
        let step3 : Option String :=
          if pyIn "<" sender then
            let name_part := pyStrip ((pySplit '<' sender).headD "")
            if name_part != "" &&
               !(["noreply", "no-reply", "info", "deals", "offers", "team", "support"].contains
                 (pyLower name_part)) then
              let name_parts := pySplitWs name_part
              if name_parts.length ≥ 2 && name_parts.length ≤ 3 then none
              else if !pyIn " " name_part || name_part.length < 20 then some name_part
              else none
            else none
          else none
        match step3 with
        | some r => r
        | none =>
          -- lines 771-780: sender domain fallback, else the default.
          if pyIn "@" sender then
            let domain := (pySplit '.' ((pySplit '>' ((pySplit '@' sender).getD 1 "")).headD "")).headD ""
            if domain != "" &&
               !(["gmail", "yahoo", "hotmail", "outlook", "mail", "email"].contains (pyLower domain)) then
              pyCapitalize domain
            else "Store/Website"
          else "Store/Website"

structure GiftcardDetails where
  card_number : Option String
  pin : Option String
  value : Option String
  store_name : Option String
  redemption_url : Option String
deriving Repr, DecidableEq

/-- analyzer.py lines 783-849: extract_giftcard_details (all fields attempted
independently; `store_name` starts as None and is never reassigned). -/
def extract_giftcard_details (subject body : String) : GiftcardDetails :=
  let text := subject ++ " " ++ body
  let firstCap := fun (pats : List RE) =>
    pats.findSome? (fun p =>
      match reSearch p text with
      | some st => (capStr st 1).map pyStrip
      | none => none)
  { card_number := firstCap gc_card_patterns
    pin := firstCap gc_pin_patterns
    value := (firstCap gc_value_patterns).map (fun v => "$" ++ v)
    store_name := none
    redemption_url :=
      match reSearch gcUrlRE text with
      | some st => (capStr st 1).map pyStrip
      | none => none }

/-! ## analyzer.py: the per-email orchestration of analyze_emails -/

structure EmailRec where
  sender : String
  subject : String
  body : String
deriving Repr, DecidableEq

/-- The observable per-email effects of one iteration of the analyze_emails
loop (analyzer.py lines 883-988), with OCR disabled (the `enable_ocr` branch
calls an outside image/OCR collaborator and is off unless requested).
`footer_called` records whether `get_enhanced_email_data` was invoked for
this email; its result only feeds display fields. -/
structure ProcessedEmail where
  category : String
  is_shopping_domain : Bool
  giftcard_details : Option GiftcardDetails
  footer_called : Bool
deriving Repr, DecidableEq

/-- analyzer.py lines 883-988: one loop iteration. Line 903 guards gift-card
detail extraction by the analyzed category; line 907 invokes the footer/offer
extraction for every email unconditionally; lines 978-983 demote a
non-shopping-domain email to Normal in strict mode (after the gift-card
extraction already happened). -/
def processEmail (strict_mode : Bool) (e : EmailRec) : ProcessedEmail :=
  let analysis := analyze_text e.subject e.sender e.body
  let giftcard_details :=
    if analysis.category == "GiftCard" then some (extract_giftcard_details e.subject e.body)
    else none
  let footer_called := true
  let category :=
    if strict_mode && !analysis.is_shopping_domain &&
       (["Membership", "Offer", "GiftCard", "Coupon"].contains analysis.category) then "Normal"
    else analysis.category
  { category := category
    is_shopping_domain := analysis.is_shopping_domain
    giftcard_details := giftcard_details
    footer_called := footer_called }

set_option maxRecDepth 100000

/-! ## Helper lemmas -/

/-- The category field of `analyze_text`, expressed through the signal
functions (definitional). -/
theorem analyze_text_category (t s b : String) :
    (analyze_text t s b).category =
      resolveCategory (orderSignal t b) (giftcardProviderSignal s)
        (giftcardSignal t b (promotionalSale t b)) (promotionalSale t b)
        (hasPromoContent b) (couponSignal t b) (categorize_from_sender s)
        (membershipSignal t b) (is_offer t) := rfl

/-- The category chain only ever produces one of the five category strings. -/
theorem resolveCategory_ne_excluded (a b c d e f : Bool) (sc : String) (g h : Bool) :
    resolveCategory a b c d e f sc g h ≠ "Excluded" := by
  unfold resolveCategory
  repeat' split
  all_goals decide

/-- With both coupon-branch inputs false the chain never yields `Coupon`. -/
theorem resolveCategory_ne_coupon (a b c d : Bool) (sc : String) (g h : Bool) :
    resolveCategory a b c d false false sc g h ≠ "Coupon" := by
  unfold resolveCategory
  split_ifs <;> simp_all

/-- With a promotional sale and a non-provider sender the chain never yields
`GiftCard`. -/
theorem resolveCategory_ne_giftcard (a c e f : Bool) (sc : String) (g h : Bool) :
    resolveCategory a false c true e f sc g h ≠ "GiftCard" := by
  unfold resolveCategory
  split_ifs <;> simp_all

/-- With no order/provider/gift-card signal and a live coupon signal the
chain yields `Coupon`. -/
theorem resolveCategory_coupon (d : Bool) (sc : String) (g h : Bool) :
    resolveCategory false false false d false true sc g h = "Coupon" := by
  unfold resolveCategory
  simp

/-! ## Claims -/

/-- Claim C1: the spec says an excluded-platform sender (for example
`noreply@reddit.com`) is finalized as category `Excluded` regardless of
content. The generalized `analyze_text` that the analyzer and web app import
has no such category: on the spec's own example it returns `Coupon`, and no
input whatsoever can produce `Excluded` (the excluded-platform list only
forces `is_shopping_domain` to false inside `is_commercial_domain`). -/
theorem c1_excluded_sender_eval :
    (analyze_text "50% off today" "noreply@reddit.com" "").category = "Coupon" ∧
    (analyze_text "50% off today" "noreply@reddit.com" "").is_shopping_domain = false ∧
    ∀ t s b, (analyze_text t s b).category ≠ "Excluded" := by
  refine ⟨by decide, by decide, ?_⟩
  intro t s b
  rw [analyze_text_category]
  exact resolveCategory_ne_excluded _ _ _ _ _ _ _ _ _

/-- Claim C2: if the order-confirmation pattern fires on the subject or on
the body, `analyze_text` returns `Normal`, whatever else matched. -/
theorem c2_order_override (t s b : String)
    (h : is_order_related t = true ∨ is_order_related b = true) :
    (analyze_text t s b).category = "Normal" := by
  have ho : orderSignal t b = true := by
    unfold orderSignal
    rcases h with h | h
    · simp [h]
    · by_cases hb : b = ""
      · rw [hb] at h
        exact absurd h (by decide)
      · by_cases ht : is_order_related t = true
        · simp [ht]
        · simp only [Bool.not_eq_true] at ht
          simp [ht, hb, h]
  rw [analyze_text_category]
  unfold resolveCategory
  rw [ho]
  simp

/-- Witness for C2 at the spec's example subject. -/
theorem c2_order_override_witness :
    is_order_related "Your order has shipped — $49.99 charged" = true ∧
    (analyze_text "Your order has shipped — $49.99 charged" "" "").category = "Normal" :=
  ⟨by decide, c2_order_override _ _ _ (Or.inl (by decide))⟩

/-- Claim C9: the category resolver is deterministic — two runs of
`analyze_text` on the same subject/sender/body produce the identical result
record (category and all matched-term lists); the embedding is a pure
function of its inputs, as is the Python original (module-level compiled
regexes are constants and no mutable state is read). -/
theorem c9_deterministic (text sender body : String) :
    analyze_text text sender body = analyze_text text sender body := rfl

/-- Counterexample to claim C3 as stated: a coupon-pattern subject with
membership-adjacent vocabulary and a body containing no coupon code still
resolves to `Coupon` when the body contains an explicit discount figure —
the `has_promo_content` test re-promotes the email after the coupon signal
was demoted. -/
theorem c3_counterexample :
    is_coupon "Earn Rewards Points on Every Purchase" = true ∧
    pyIn "rewards" (pyLower "Earn Rewards Points on Every Purchase") = true ∧
    hasCouponCode "Enjoy 15% off everything today." = false ∧
    couponSignal "Earn Rewards Points on Every Purchase" "Enjoy 15% off everything today." = false ∧
    (analyze_text "Earn Rewards Points on Every Purchase" ""
      "Enjoy 15% off everything today.").category = "Coupon" := by
  refine ⟨by decide, by decide, by decide, by decide, by decide⟩

/-- Claim C3 amended: the demoted coupon signal keeps the email away from
`Coupon` only when the body additionally contains no promotional content
(no case-sensitive alphanumeric promo token and no explicit discount
figure). -/
theorem c3_coupon_demotion (t s b : String)
    (h1 : is_coupon t = true)
    (h2 : membershipLikeSignal t b = true)
    (h3 : b ≠ "")
    (h4 : hasCouponCode b = false)
    (h5 : hasPromoContent b = false) :
    (analyze_text t s b).category ≠ "Coupon" := by
  have hc : couponSignal t b = false := by
    unfold couponSignal
    rw [h1, h2]
    simp [h3, h4]
  rw [analyze_text_category, hc, h5]
  exact resolveCategory_ne_coupon _ _ _ _ _ _ _

/-- Witness for C3 at the spec's example subject with a promo-free body. -/
theorem c3_coupon_demotion_witness :
    is_coupon "Earn Rewards Points on Every Purchase" = true ∧
    membershipLikeSignal "Earn Rewards Points on Every Purchase" "See your points balance." = true ∧
    hasCouponCode "See your points balance." = false ∧
    hasPromoContent "See your points balance." = false ∧
    (analyze_text "Earn Rewards Points on Every Purchase" ""
      "See your points balance.").category ≠ "Coupon" :=
  ⟨by decide, by decide, by decide, by decide,
   c3_coupon_demotion _ _ _ (by decide) (by decide) (by decide) (by decide) (by decide)⟩

/-- Counterexample to claim C4 as stated: when the sender is a recognized
gift-card provider domain, the provider branch precedes the promotional-sale
suppression, so a promotional-sale email whose gift-card pattern fires is
still categorized `GiftCard`. -/
theorem c4_counterexample :
    is_giftcard "Flash sale: your gift card awaits" = true ∧
    promotionalSale "Flash sale: your gift card awaits" "" = true ∧
    (analyze_text "Flash sale: your gift card awaits" "promo@freecash.com" "").category
      = "GiftCard" := by
  refine ⟨by decide, by decide, by decide⟩

/-- Claim C4 amended: an email judged a promotional sale is never categorized
`GiftCard` by the content branch — provided the sender is not a recognized
gift-card provider domain. -/
theorem c4_promotional_giftcard_guard (t s b : String)
    (_h0 : is_giftcard t = true)
    (h1 : promotionalSale t b = true)
    (h2 : giftcardProviderSignal s = false) :
    (analyze_text t s b).category ≠ "GiftCard" := by
  rw [analyze_text_category, h1, h2]
  exact resolveCategory_ne_giftcard _ _ _ _ _ _ _

/-- Witness for C4: a promotional-sale subject whose gift-card pattern fires,
from a non-provider sender. -/
theorem c4_promotional_giftcard_guard_witness :
    is_giftcard "Flash sale: your gift card awaits" = true ∧
    promotionalSale "Flash sale: your gift card awaits" "" = true ∧
    (analyze_text "Flash sale: your gift card awaits" "deals@nordstrom.com" "").category
      ≠ "GiftCard" :=
  ⟨by decide, by decide,
   c4_promotional_giftcard_guard _ _ _ (by decide) (by decide) (by decide)⟩

/-- Claim C10: with an empty body the coupon content-verification cannot run,
so a subject that fires the coupon pattern together with membership-like
vocabulary — and carries no order/gift-card/provider signal — resolves to
`Coupon`. -/
theorem c10_empty_body_no_demotion (t s : String)
    (h1 : is_coupon t = true)
    (h2 : membershipLikeSignal t "" = true)
    (h3 : is_order_related t = false)
    (h4 : is_giftcard t = false)
    (h5 : giftcardProviderSignal s = false) :
    (analyze_text t s "").category = "Coupon" := by
  have hc : couponSignal t "" = true := by
    unfold couponSignal
    rw [h1, h2]
    simp [h1]
  have ho : orderSignal t "" = false := by
    unfold orderSignal
    simp [h3]
  have hg : giftcardSignal t "" (promotionalSale t "") = false := by
    unfold giftcardSignal
    simp [h4]
  have hp : hasPromoContent "" = false := rfl
  rw [analyze_text_category, ho, h5, hg, hc, hp]
  exact resolveCategory_coupon _ _ _ _

/-- Witness for C10 at the spec's example subject with an empty body. -/
theorem c10_empty_body_no_demotion_witness :
    is_coupon "Earn Rewards Points on Every Purchase" = true ∧
    membershipLikeSignal "Earn Rewards Points on Every Purchase" "" = true ∧
    is_order_related "Earn Rewards Points on Every Purchase" = false ∧
    is_giftcard "Earn Rewards Points on Every Purchase" = false ∧
    (analyze_text "Earn Rewards Points on Every Purchase" "" "").category = "Coupon" :=
  ⟨by decide, by decide, by decide, by decide,
   c10_empty_body_no_demotion _ _ (by decide) (by decide) (by decide) (by decide) (by decide)⟩

/-- Counterexample to claim C5 as stated: on the no-pattern input the company
extractor does not stop at its `"Store/Website"` default — the sender-domain
fallback stage fires first and returns the capitalized domain. -/
theorem c5_counterexample :
    extract_company_name "user@example.com" "Hi" "" = "Example" ∧
    "Example" ≠ "Store/Website" := ⟨by decide, by decide⟩

/-- Claim C5 amended: the extractors are total by construction (every stage
either returns or falls through to a fixed final value) and on the
no-recognizable-pattern email the category is `Normal`, the membership and
card extractors return their documented defaults, and the company extractor
returns `"Example"` via the sender-domain fallback (its `"Store/Website"`
default is reached only when that stage is also unavailable). -/
theorem c5_no_pattern_defaults :
    (analyze_text "Hi" "user@example.com" "").category = "Normal" ∧
    extract_membership_name "Hi" "" = "Membership" ∧
    extract_credit_card_name "Hi" "" = "Credit Card" ∧
    extract_company_name "user@example.com" "Hi" "" = "Example" :=
  ⟨by decide, by decide, by decide, by decide⟩

/-- Counterexample to claim C6 as stated: the footer/offer extraction
(`get_enhanced_email_data`, analyzer.py line 907) is invoked for every email,
here one whose resolved category is `Normal`, not only for Coupon emails. -/
theorem c6_counterexample :
    (processEmail false ⟨"", "Hi", ""⟩).category = "Normal" ∧
    (processEmail false ⟨"", "Hi", ""⟩).footer_called = true := ⟨by decide, by decide⟩

/-- Claim C6 amended (default non-strict, OCR-off path): gift-card detail
extraction runs exactly on the emails whose resolved category is `GiftCard`,
while the footer/offer extraction runs unconditionally on every email. -/
theorem c6_extraction_guard (e : EmailRec) :
    ((processEmail false e).giftcard_details.isSome = true ↔
      (processEmail false e).category = "GiftCard") ∧
    (processEmail false e).footer_called = true := by
  constructor
  · by_cases h : (analyze_text e.subject e.sender e.body).category = "GiftCard"
    · simp [processEmail, h]
    · simp [processEmail, h]
  · rfl

/-- Claim C7: the membership lexicon is consulted longest-key-first, so the
specific key `sephora beauty insider` wins and the extractor returns the
canonical name. -/
theorem c7_membership_lexicon_roundtrip :
    extract_membership_name "Welcome to Sephora Beauty Insider!" "" = "Sephora Beauty Insider" := by
  decide

/-- Counterexample to claim C8 as stated: a text containing both
`Chase Sapphire Reserve` and `Chase Freedom` is not always resolved to the
Chase match — an earlier-ordered issuer family (here American Express) wins
the ordered scan. -/
theorem c8_counterexample :
    pyIn "Chase Sapphire Reserve"
      "Welcome! Your American Express Platinum Card. Chase Sapphire Reserve Card. Chase Freedom Card." = true ∧
    pyIn "Chase Freedom"
      "Welcome! Your American Express Platinum Card. Chase Sapphire Reserve Card. Chase Freedom Card." = true ∧
    extract_credit_card_name
      "Welcome! Your American Express Platinum Card. Chase Sapphire Reserve Card. Chase Freedom Card." ""
      = "American Express Platinum" := ⟨by decide, by decide, by decide⟩

/-- Claim C8 amended: among the Chase patterns the ordered-precedence claim
holds — with both phrases present and no earlier family matching, the
extractor returns `Chase Sapphire Reserve` in either textual order, even when
`Chase Freedom Card` occurs first in the text (so the result is decided by
pattern order, not first-found order). -/
theorem c8_ordered_precedence :
    extract_credit_card_name "Get the Chase Freedom Card or the Chase Sapphire Reserve Card" ""
      = "Chase Sapphire Reserve" ∧
    extract_credit_card_name "Chase Sapphire Reserve Card and Chase Freedom Card" ""
      = "Chase Sapphire Reserve" := ⟨by decide, by decide⟩

end EmailScrapper
